import Mathlib

/-!
OfflinebotPage: lifecycle controller of the on-device chat engine

A shallow embedding of `src/OfflineBot.jsx`.  The React component is a set of
event handlers over mutable cells (`useState`, `useRef`, `window`,
`localStorage`).  Every handler runs to its next `await` without being
interleaved with anything else, so the embedding is a transition system:

* `State` holds every cell the handlers read or write, together with the
  asynchronous work that is still suspended at an `await`;
* `Event` is what the event loop can deliver: a user action, or the
  resolution of one of the suspended operations;
* `step` runs the code that the event triggers up to its next `await`.

Line numbers in the comments refer to `src/OfflineBot.jsx`.
-/

namespace OfflineBot

/-! ## Constants (lines 11-13) -/

def MODEL_NAME : String := "Llama-3.1-8B-Instruct-q4f32_1-MLC"
def MODEL_SIZE_TEXT : String := "≈ 4.0 GB"
def LOCALSTORAGE_KEY : String := "webllm_downloaded_v1"

/-- The key written as `${LOCALSTORAGE_KEY}_declined` in the source. -/
def DECLINED_KEY : String := LOCALSTORAGE_KEY ++ "_declined"

/-! ## Data model -/

inductive Role where
  | user
  | model
deriving DecidableEq, Repr

/-- One entry of the `messages` state: `{ role, content }`. -/
structure Message where
  role : Role
  content : String
deriving DecidableEq, Repr

inductive ChatRole where
  | system
  | user
  | assistant
deriving DecidableEq, Repr

/-- One entry of the `chatHistory` array handed to the engine (lines 223-227). -/
structure ChatMessage where
  role : ChatRole
  content : String
deriving DecidableEq, Repr

/-- The object produced by `CreateMLCEngine`.  The controller only ever looks at
whether `chat.completions.create` and `dispose` are present. -/
structure Engine where
  id : Nat
  hasChat : Bool
  hasDispose : Bool
deriving DecidableEq, Repr

/-- The device-local key-value store behind `localStorage`. -/
abbrev Storage := List (String × String)

def getItem (st : Storage) (k : String) : Option String :=
  match st with
  | [] => none
  | (k', v) :: rest => if k' = k then some v else getItem rest k

def removeItem (st : Storage) (k : String) : Storage :=
  match st with
  | [] => []
  | (k', v) :: rest => if k' = k then removeItem rest k else (k', v) :: removeItem rest k

def setItem (st : Storage) (k v : String) : Storage :=
  (k, v) :: removeItem st k

/-- A JavaScript number: NaN, an infinity, or the finite value
(-1)^`negative` * `mantissa` * 2^`exponent`.  A double has a mantissa below
2^53 and an exponent from -1074 to 971. -/
inductive JsNumber where
  | nan
  | inf (negative : Bool)
  | finite (negative : Bool) (mantissa : Nat) (exponent : Int)
deriving DecidableEq, Repr

/-- The value of `internalProgress`: what `Math.round` returns, an integer, NaN
or an infinity. -/
inductive Percent where
  | nan
  | inf (negative : Bool)
  | int (n : Int)
deriving DecidableEq, Repr

instance : OfNat Percent n := ⟨Percent.int n⟩

/-- The argument of `onProgress`: `report?.text`, and `report?.progress` when
`typeof` gives `"number"` for it.  A `progress` of `none` is one that is
missing, or that is not a number and does not compare `>= 1` at line 135, a
test that `typeof` does not guard. -/
structure Report where
  text : Option String
  progress : Option JsNumber
deriving DecidableEq, Repr

/-- What the caller of `startDownloadAndInit` does once the call has resolved. -/
inductive AcqCont where
  /-- The mount effect (line 80) and the download button (line 301): nothing. -/
  | done
  /-- The rest of `handleSend` (lines 196-202) with its `userText` and the
  `messages` array captured by the closure. -/
  | send (userText : String) (history : List Message)
deriving DecidableEq, Repr

/-- A call of `startDownloadAndInit` suspended at `await lazyCreateEngine` (line 141). -/
structure AcqTask where
  id : Nat
  cont : AcqCont
deriving DecidableEq, Repr

/-- A call of `generateWithEngine` suspended at line 245 or inside the
`for await` loop of line 253. -/
structure GenTask where
  id : Nat
  /-- The `AbortController` created at line 236. -/
  controller : Nat
  /-- The local `assistantAccum`. -/
  accum : String
  /-- The `messages` argument passed to `chat.completions.create`. -/
  prompt : List ChatMessage
deriving DecidableEq, Repr

/-- Every cell the component reads or writes. -/
structure State where
  -- `useState` cells
  messages : List Message
  input : String
  isLoading : Bool
  isDownloading : Bool
  internalInitStatus : String
  internalProgress : Percent
  showDownloadButton : Bool
  -- `useRef` cells
  engineRef : Option Engine
  modelLoadedRef : Bool
  userDeclinedRef : Bool
  abortRef : Option Nat
  disposedRef : Bool
  -- ambient cells
  windowEngine : Option Engine
  localStorage : Storage
  -- suspended asynchronous work
  acqs : List AcqTask
  gens : List GenTask
  /-- The delays in milliseconds of the pending `setTimeout` calls, oldest first. -/
  timers : List Nat
  /-- Whether the mount effect returned its cleanup function (line 92). -/
  cleanup : Bool
  -- record of the calls made to the outside
  aborted : List Nat
  disposedEngines : List Nat
  confirmCalls : Nat
  createCalls : Nat
  nextId : Nat
deriving DecidableEq, Repr

/-- The component before its mount effect has run: the initial values of
lines 17-36 over a given device store and process-wide engine slot. -/
def initialState (store : Storage) (w : Option Engine) : State :=
  { messages := []
    input := ""
    isLoading := false
    isDownloading := false
    internalInitStatus := ""
    internalProgress := 0
    showDownloadButton := false
    engineRef := none
    modelLoadedRef := false
    userDeclinedRef := false
    abortRef := none
    disposedRef := false
    windowEngine := w
    localStorage := store
    acqs := []
    gens := []
    timers := []
    cleanup := false
    aborted := []
    disposedEngines := []
    confirmCalls := 0
    createCalls := 0
    nextId := 0 }

/-! ## Strings -/

/-- White space and line terminators removed by `String.prototype.trim`. -/
def isJsWhitespace (c : Char) : Bool :=
  let n := c.toNat
  n = 0x09 || n = 0x0A || n = 0x0B || n = 0x0C || n = 0x0D || n = 0x20 || n = 0xA0
    || n = 0x1680 || (0x2000 ≤ n && n ≤ 0x200A) || n = 0x2028 || n = 0x2029
    || n = 0x202F || n = 0x205F || n = 0x3000 || n = 0xFEFF

/-- The result of `input.trim()`. -/
def jsTrim (s : String) : String :=
  ⟨((s.data.dropWhile isJsWhitespace).reverse.dropWhile isJsWhitespace).reverse⟩

/-- The expression `a || b` on strings: the empty string is falsy. -/
def strOr (a b : String) : String :=
  if a = "" then b else a

/-! ## Messages the controller writes -/

def msgSimulatedMode : Message :=
  ⟨Role.model, "Using simulated responses (offline model not downloaded)."⟩

def msgReady : Message :=
  ⟨Role.model, "Offline model downloaded and ready."⟩

def msgInitFailed : Message :=
  ⟨Role.model, "Failed to initialize offline model. Using simulated responses."⟩

def msgSimulated : Message :=
  ⟨Role.model, "This is a simulated AI response."⟩

def msgNoChatApi : Message :=
  ⟨Role.model, "Chat API not available in this engine build."⟩

def msgPlaceholder : Message :=
  ⟨Role.model, " "⟩

def msgCancelled : Message :=
  ⟨Role.model, "Generation cancelled."⟩

/-! ## Handlers -/

/-- Lines 115-119, repeated at 50-54 and 294-298: adopt the process-wide engine. -/
def adoptEngine (e : Engine) (s : State) : State :=
  { s with
    engineRef := some e
    modelLoadedRef := true
    showDownloadButton := false
    internalInitStatus := "Model ready"
    internalProgress := 100 }

/-- Lines 171-177, up to the `setTimeout`. -/
def simulateResponse (s : State) : State :=
  { s with isLoading := true, timers := s.timers ++ [1000] }

/-- The callback of the `setTimeout` at lines 173-176. -/
def simulateTimeout (s : State) : State :=
  match s.timers with
  | [] => s
  | _ :: rest =>
    { s with messages := s.messages ++ [msgSimulated], isLoading := false, timers := rest }

/-- Lines 223-227. -/
def chatHistory (messages : List Message) (userText : String) : List ChatMessage :=
  [⟨ChatRole.system, "You are a helpful assistant."⟩]
    ++ messages.map (fun m =>
        match m.role with
        | Role.user => ⟨ChatRole.user, m.content⟩
        | Role.model => ⟨ChatRole.assistant, m.content⟩)
    ++ [⟨ChatRole.user, userText⟩]

/-- Lines 229-234: abort and drop the controller held in `abortRef`. -/
def abortHeld (s : State) : State :=
  match s.abortRef with
  | some c => { s with aborted := c :: s.aborted, abortRef := none }
  | none => s

/-- Lines 216-251, up to `await eng.chat.completions.create`.  `history` is the
`messages` array of the closure that runs the call. -/
def generateWithEngine (userText : String) (history : List Message) (s : State) : State :=
  match s.engineRef with
  | none => { s with messages := s.messages ++ [msgNoChatApi] }
  | some eng =>
    if !eng.hasChat then
      { s with messages := s.messages ++ [msgNoChatApi] }
    else
      let s1 := abortHeld s
      { s1 with
        abortRef := some s1.nextId
        isLoading := true
        messages := s1.messages ++ [msgPlaceholder]
        gens := s1.gens ++ [⟨s1.nextId, s1.nextId, "", chatHistory history userText⟩]
        nextId := s1.nextId + 1 }

/-- Lines 196-202: what `handleSend` does after `await startDownloadAndInit()`. -/
def sendAfterInit (userText : String) (history : List Message) (s : State) : State :=
  if s.engineRef.isSome && s.modelLoadedRef then
    generateWithEngine userText history s
  else
    simulateResponse s

def resume (k : AcqCont) (s : State) : State :=
  match k with
  | AcqCont.done => s
  | AcqCont.send userText history => sendAfterInit userText history s

/-- Lines 113-141, up to `await lazyCreateEngine(onProgress)`; on the early
return of line 120 the caller `k` goes on at once. -/
def startDownloadAndInit (k : AcqCont) (s : State) : State :=
  match s.windowEngine with
  | some e => resume k (adoptEngine e s)
  | none =>
    { s with
      internalInitStatus := "Requesting model..."
      internalProgress := 0
      isDownloading := true
      createCalls := s.createCalls + 1
      acqs := s.acqs ++ [⟨s.nextId, k⟩]
      nextId := s.nextId + 1 }

/-- Lines 142-158 and 165-167: `lazyCreateEngine` resolved with `eng`. -/
def initResolved (eng : Engine) (s : State) : State :=
  if s.disposedRef then
    { s with
      disposedEngines := if eng.hasDispose then eng.id :: s.disposedEngines else s.disposedEngines
      isDownloading := false }
  else
    { s with
      engineRef := some eng
      windowEngine := some eng
      localStorage := removeItem (setItem s.localStorage LOCALSTORAGE_KEY "1") DECLINED_KEY
      modelLoadedRef := true
      showDownloadButton := false
      internalInitStatus := "Model ready"
      internalProgress := 100
      messages := s.messages ++ [msgReady]
      isDownloading := false }

/-- Lines 159-167: `lazyCreateEngine` threw. -/
def initRejected (s : State) : State :=
  { s with
    userDeclinedRef := true
    localStorage := setItem s.localStorage DECLINED_KEY "1"
    showDownloadButton := true
    messages := s.messages ++ [msgInitFailed]
    isDownloading := false }

/-- Lines 180-213. -/
def handleSend (s : State) : State :=
  if jsTrim s.input = "" || s.isLoading || s.isDownloading then s
  else
    let userText := jsTrim s.input
    let s1 := { s with messages := s.messages ++ [⟨Role.user, userText⟩], input := "" }
    if s1.engineRef.isSome && s1.modelLoadedRef && (s1.engineRef.any fun e => e.hasChat) then
      generateWithEngine userText s.messages s1
    else if getItem s1.localStorage LOCALSTORAGE_KEY = some "1" && s1.engineRef.isNone then
      startDownloadAndInit (AcqCont.send userText s.messages) s1
    else if s1.userDeclinedRef then
      simulateResponse s1
    else
      simulateResponse { s1 with showDownloadButton := true }

/-- Lines 281-289. -/
def handleStop (s : State) : State :=
  match s.abortRef with
  | some c => { s with aborted := c :: s.aborted, abortRef := none, isLoading := false }
  | none => s

/-- Lines 292-302. -/
def onClickDownloadButton (s : State) : State :=
  match s.windowEngine with
  | some e => adoptEngine e s
  | none => startDownloadAndInit AcqCont.done s

/-- How `window.confirm` ends. -/
inductive Confirm where
  | ok
  | cancel
  | throws
deriving DecidableEq, Repr

/-- The mount effect, lines 46-99. -/
def mount (c : Confirm) (s0 : State) : State :=
  let s := { s0 with disposedRef := false }
  match s.windowEngine with
  | some e => adoptEngine e s
  | none =>
    if getItem s.localStorage LOCALSTORAGE_KEY = some "1" then
      { s with
        showDownloadButton := false
        internalInitStatus := "Model artifacts present (init on demand)"
        modelLoadedRef := false }
    else if getItem s.localStorage DECLINED_KEY = some "1" then
      { s with userDeclinedRef := true, showDownloadButton := true }
    else
      let s1 := { s with confirmCalls := s.confirmCalls + 1, cleanup := true }
      match c with
      | Confirm.ok => startDownloadAndInit AcqCont.done s1
      | Confirm.cancel =>
        { s1 with
          userDeclinedRef := true
          localStorage := setItem s1.localStorage DECLINED_KEY "1"
          showDownloadButton := true
          messages := s1.messages ++ [msgSimulatedMode] }
      | Confirm.throws =>
        { s1 with userDeclinedRef := true, showDownloadButton := true }

/-- The cleanup function of the mount effect, lines 92-97. -/
def unmount (s : State) : State :=
  if s.cleanup then
    { s with
      disposedRef := true
      aborted := match s.abortRef with
        | some c => c :: s.aborted
        | none => s.aborted }
  else s

/-! ## Numbers (lines 132-137) -/

/-- The number of halvings that bring `y` below 2^53, at most `fuel`. -/
def excessBits : Nat → Nat → Nat
  | 0, _ => 0
  | fuel + 1, y => if y < 2 ^ 53 then 0 else excessBits fuel (y / 2) + 1

/-- The natural number `y` rounded to 53 significant bits, to nearest and ties
to even, as IEEE 754 multiplication rounds the exact product. -/
def round53 (y : Nat) : Nat :=
  if y < 2 ^ 53 then y
  else
    let d := excessBits y y
    let q := y / 2 ^ d
    let r := y % 2 ^ d
    if 2 ^ d < 2 * r ∨ (2 * r = 2 ^ d ∧ q % 2 = 1) then (q + 1) * 2 ^ d else q * 2 ^ d

/-- The double product `report.progress * 100` of line 133: the exact product
rounded to 53 significant bits, or an infinity when that is 2^1024 or more.
With an exponent of -1074 or more the rounded product is a double, so no
second rounding takes place for small values. -/
def timesHundred : JsNumber → JsNumber
  | JsNumber.nan => JsNumber.nan
  | JsNumber.inf negative => JsNumber.inf negative
  | JsNumber.finite negative m e =>
    if (if 0 ≤ e then 2 ^ 1024 ≤ round53 (m * 100) * 2 ^ e.toNat
        else 2 ^ 1024 * 2 ^ (-e).toNat ≤ round53 (m * 100)) then
      JsNumber.inf negative
    else
      JsNumber.finite negative (round53 (m * 100)) e

/-- The value of `Math.round(x)`: the integer nearest to `x`, halves going up;
NaN and the infinities are returned as they are. -/
def mathRound : JsNumber → Percent
  | JsNumber.nan => Percent.nan
  | JsNumber.inf negative => Percent.inf negative
  | JsNumber.finite negative m e =>
    let n : Int := if negative then -(m : Int) else (m : Int)
    if 0 ≤ e then Percent.int (n * 2 ^ e.toNat)
    else Percent.int ((2 * n + 2 ^ (-e).toNat) / 2 ^ ((-e).toNat + 1))

/-- The test `report?.progress >= 1` of line 135. -/
def geOne : JsNumber → Bool
  | JsNumber.nan => false
  | JsNumber.inf negative => !negative
  | JsNumber.finite negative m e =>
    !negative && (if 0 ≤ e then decide (1 ≤ m) else decide (2 ^ (-e).toNat ≤ m))

/-- The number is below zero. -/
def isNegative : JsNumber → Bool
  | JsNumber.nan => false
  | JsNumber.inf negative => negative
  | JsNumber.finite negative m _ => negative && decide (m ≠ 0)

/-- The exact value of the finite number with mantissa `m`, exponent `e` and
positive sign. -/
def dyadic (m : Nat) (e : Int) : Rat :=
  (m : Rat) * 2 ^ e

/-- The double `m * 2^e`, with a full mantissa of 53 bits, is the double nearest
to the exact value `q`: they differ by less than half a unit in the last place. -/
def isNearestDouble (m : Nat) (e : Int) (q : Rat) : Bool :=
  decide (2 ^ 52 ≤ m) && decide (m < 2 ^ 53) && decide (-1074 ≤ e) && decide (e ≤ 971)
    && decide (|dyadic m e - q| < dyadic 1 (e - 1))

/-- The integer nearest to the double product of `m * 2^e` by 100, halves going
up, in exact arithmetic: the product `m * 100 * 2^e` is rounded to 53
significant bits, and the result `x` to `⌊x + 1/2⌋`. -/
def roundedPercent (m : Nat) (e : Int) : Int :=
  ⌊dyadic (round53 (m * 100)) e + 1 / 2⌋

/-- The callback `onProgress`, lines 128-138. -/
def onProgress (r : Report) (s : State) : State :=
  if s.disposedRef then s
  else
    let s1 := { s with internalInitStatus := strOr (r.text.getD "") "Loading model..." }
    match r.progress with
    | none => s1
    | some p =>
      let s2 := { s1 with internalProgress := mathRound (timesHundred p) }
      if geOne p then { s2 with internalProgress := 100 } else s2

/-- The updater passed to `setMessages` at lines 257-265. -/
def streamUpdate (assistantAccum : String) (prev : List Message) : List Message :=
  match prev.getLast? with
  | some last =>
    if last.role = Role.model then
      prev.dropLast ++ [⟨Role.model, assistantAccum⟩]
    else
      prev ++ [⟨Role.model, strOr assistantAccum " "⟩]
  | none => prev ++ [⟨Role.model, strOr assistantAccum " "⟩]

/-- One turn of the `for await` loop, lines 253-266, for the call `t`. -/
def onChunk (t : GenTask) (piece : Option String) (s : State) : State :=
  let p := strOr (piece.getD "") ""
  let accum := if p = "" then t.accum else t.accum ++ p
  { s with
    messages := streamUpdate accum s.messages
    gens := s.gens.map fun g => if g.id = t.id then { g with accum := accum } else g }

/-- The `finally` block of lines 274-277; the call `t` is over. -/
def generateFinally (t : GenTask) (s : State) : State :=
  { s with
    isLoading := false
    abortRef := none
    gens := s.gens.filter fun g => g.id != t.id }

/-- The `catch` block of lines 267-273 followed by the `finally` block. -/
def onStreamError (t : GenTask) (name : String) (message : Option String) (s : State) : State :=
  let s1 :=
    if name = "AbortError" then
      { s with messages := s.messages ++ [msgCancelled] }
    else
      { s with messages := s.messages
          ++ [⟨Role.model, "Error: " ++ strOr (message.getD "") "Unknown error"⟩] }
  generateFinally t s1

def findAcq (s : State) (id : Nat) : Option AcqTask :=
  s.acqs.find? fun a => a.id == id

def findGen (s : State) (id : Nat) : Option GenTask :=
  s.gens.find? fun g => g.id == id

def dropAcq (id : Nat) (s : State) : State :=
  { s with acqs := s.acqs.filter fun a => a.id != id }

/-! ## The event loop -/

/-- What the event loop can deliver to the component. -/
inductive Event where
  /-- The mount effect runs; `c` is how `window.confirm` ends if it is called. -/
  | mount (c : Confirm)
  /-- React runs the cleanup of the mount effect. -/
  | unmount
  /-- The `onChange` of the input field (line 365). -/
  | setInput (text : String)
  /-- The form is submitted or the send icon is clicked while idle. -/
  | send
  /-- The send icon is clicked while `isLoading` (line 371). -/
  | stop
  /-- The download button is clicked (line 311). -/
  | clickDownload
  /-- The engine provider reports progress to the pending call `task`. -/
  | progress (task : Nat) (r : Report)
  /-- The `lazyCreateEngine` of the pending call `task` resolves with `eng`. -/
  | initResolved (task : Nat) (eng : Engine)
  /-- The `lazyCreateEngine` of the pending call `task` throws. -/
  | initRejected (task : Nat)
  /-- The stream of the pending call `task` yields a chunk whose
  `choices?.[0]?.delta?.content` is `piece`. -/
  | chunk (task : Nat) (piece : Option String)
  /-- The stream of the pending call `task` is exhausted. -/
  | streamEnd (task : Nat)
  /-- Creating or reading the stream of `task` throws `{ name, message }`. -/
  | streamError (task : Nat) (name : String) (message : Option String)
  /-- The oldest pending `setTimeout` of `simulateResponse` fires. -/
  | timeout
deriving DecidableEq, Repr

/-- The code run by one event, up to the next suspension point. -/
def step (s : State) (ev : Event) : State :=
  match ev with
  | Event.mount c => mount c s
  | Event.unmount => unmount s
  | Event.setInput text => { s with input := text }
  | Event.send => handleSend s
  | Event.stop => handleStop s
  | Event.clickDownload => onClickDownloadButton s
  | Event.progress task r =>
    match findAcq s task with
    | some _ => onProgress r s
    | none => s
  | Event.initResolved task eng =>
    match findAcq s task with
    | some a => resume a.cont (initResolved eng (dropAcq task s))
    | none => s
  | Event.initRejected task =>
    match findAcq s task with
    | some a => resume a.cont (initRejected (dropAcq task s))
    | none => s
  | Event.chunk task piece =>
    match findGen s task with
    | some t => onChunk t piece s
    | none => s
  | Event.streamEnd task =>
    match findGen s task with
    | some t => generateFinally t s
    | none => s
  | Event.streamError task name message =>
    match findGen s task with
    | some t => onStreamError t name message s
    | none => s
  | Event.timeout => simulateTimeout s

/-- The state after a sequence of events. -/
def run (s : State) (evs : List Event) : State :=
  evs.foldl step s

/-- The call `submitTurn(text)`: the text is typed, then sent. -/
def submitTurn (text : String) (s : State) : State :=
  handleSend { s with input := text }

/-! ## The persisted consent flags -/

/-- The test `localStorage.getItem(LOCALSTORAGE_KEY) === "1"` of lines 58-59 and 193. -/
def artifactDownloaded (s : State) : Bool :=
  getItem s.localStorage LOCALSTORAGE_KEY = some "1"

/-- The test on the declined key of lines 67-68. -/
def downloadDeclined (s : State) : Bool :=
  getItem s.localStorage DECLINED_KEY = some "1"

/-- The event is the failure of a pending acquisition, delivered in a state whose
artifact flag is set. -/
def failsWhileDownloaded (s : State) (ev : Event) : Bool :=
  match ev with
  | Event.initRejected task => (findAcq s task).isSome && artifactDownloaded s
  | _ => false

/-- No event of the sequence, delivered from `s` on, is the failure of a pending
acquisition in a state whose artifact flag is set. -/
def noFailureWhileDownloaded (s : State) (evs : List Event) : Bool :=
  match evs with
  | [] => true
  | ev :: rest => !failsWhileDownloaded s ev && noFailureWhileDownloaded (step s ev) rest

/-! ## Vocabulary of the statements -/

/-- The concatenation of the `delta.content` of the chunks, a missing content
counting as the empty string (line 254). -/
def deliveredText : List (Option String) → String
  | [] => ""
  | p :: ps => p.getD "" ++ deliveredText ps

/-- The content of the streamed model message once the chunks `pieces` have been
read: the placeholder of line 241 until the first chunk, the accumulated text
from then on. -/
def streamedContent (pieces : List (Option String)) : String :=
  if pieces = [] then " " else deliveredText pieces

/-- The events of a turn sent in state `s` whose stream yields the chunks
`pieces`, is stopped by the user, still yields the chunks `late` that were in
flight, and then throws an `AbortError`. -/
def cancelledTurn (s : State) (text : String) (pieces late : List (Option String))
    (message : Option String) : List Event :=
  [Event.setInput text, Event.send] ++ pieces.map (Event.chunk s.nextId) ++ [Event.stop]
    ++ late.map (Event.chunk s.nextId) ++ [Event.streamError s.nextId "AbortError" message]

/-- The state reached by mounting the component in a process that already
holds the engine `e`, on a device with an empty store. -/
def readyState (e : Engine) : State :=
  mount Confirm.ok (initialState [] (some e))

/-- The events of two turns, the first stopped by the user after one chunk and
the second sent before the stopped stream has ended. -/
def overlapTrace : List Event :=
  [Event.setInput "a", Event.send, Event.chunk 0 (some "x"), Event.stop,
    Event.setInput "b", Event.send]

/-- The state reached by mounting the component on a device whose artifact flag
is set, in a process that holds no engine. -/
def artifactPresentState : State :=
  mount Confirm.ok (initialState [(LOCALSTORAGE_KEY, "1")] none)

/-- The reports whose `text` and numeric `progress` are the given pairs. -/
def reportsOf (ps : List (Option String × JsNumber)) : List Report :=
  ps.map fun q => ⟨q.1, some q.2⟩

/-- The values of `internalProgress` after each of the reports, delivered in
order to the pending call `task` from the state `s` on. -/
def publishedPercents (s : State) (task : Nat) : List Report → List Percent
  | [] => []
  | r :: rs =>
    (step s (Event.progress task r)).internalProgress
      :: publishedPercents (step s (Event.progress task r)) task rs

/-- The state reached by mounting the component on a device whose declined flag
is set, in a process that holds no engine. -/
def declinedState : State :=
  mount Confirm.ok (initialState [(DECLINED_KEY, "1")] none)

/-- The conversation `after` keeps the history `before`: it is at least as
long, and every message of `before` that is not its last message, or that is a
user message, is found in `after` at the same index. -/
def KeepsHistory (before after : List Message) : Prop :=
  before.length ≤ after.length
    ∧ ∀ i, i < before.length →
        (i + 1 < before.length ∨ ∃ c, before[i]? = some ⟨Role.user, c⟩) →
        after[i]? = before[i]?

end OfflineBot

/-!
The post controller: the language handed to caption generation

A shallow embedding of `createPostController` in `src/post.controller.js`, up
to the call that asks for the caption.  Line numbers in this section refer to
that file.
-/

namespace PostController

/-- Lines 15-26. -/
def SUPPORTED_LANGUAGES : List String :=
  ["English", "Hindi", "Marathi", "Gujarati", "Bengali", "Tamil", "Telugu", "Kannada", "Urdu"]

/-- The threshold of line 78, `3.5 * 1024 * 1024` bytes. -/
def INLINE_THRESHOLD : Nat := 3670016

/-- What the controller reads of `req.file`: its `mimetype` and the `sizeBytes`
of line 75. -/
structure UploadedFile where
  mimetype : String
  sizeBytes : Nat
deriving DecidableEq, Repr

/-- What the controller reads of the request: `req.file` and
`req.body?.targetLang`. -/
structure Request where
  file : Option UploadedFile
  targetLang : Option String
deriving DecidableEq, Repr

/-- The first call or response the controller makes once the file is classified. -/
inductive Outcome where
  /-- The responses with status 400 of lines 52 and 124. -/
  | badRequest (message : String)
  /-- The call `generateDocumentCaption({ pdfBase64 }, targetLang)` of line 83. -/
  | documentCaption (targetLang : String)
  /-- The call `generateContent(promptContents)` of line 109, whose prompt names
  the URL and ends with "Respond in" followed by the language. -/
  | largePdfPrompt (publicUrl : String) (targetLang : String)
  /-- The error thrown at line 90. -/
  | uploadFailed
  /-- The call `generateImageCaption(base64ImageFile, mimeType, targetLang)` of line 122. -/
  | imageCaption (mimeType : String) (targetLang : String)
deriving DecidableEq, Repr

/-- The result of the run: the text given to `console.warn` at line 58, if any,
and the outcome. -/
structure Trace where
  warning : Option String
  outcome : Outcome
deriving DecidableEq, Repr

/-- The test `mimeType.startsWith("image/")` of line 119. -/
def isImage (mimeType : String) : Bool :=
  "image/".data.isPrefixOf mimeType.data

/-- Lines 47-125.  `uploadUrl` is the `url` of the result of `uploadfile` at
line 87, if it has one. -/
def createPostController (req : Request) (uploadUrl : Option String) : Trace :=
  let targetLang := OfflineBot.strOr (req.targetLang.getD "") "English"
  match req.file with
  | none => ⟨none, Outcome.badRequest "No file uploaded. Field name should be `image`."⟩
  | some file =>
    let warning :=
      if SUPPORTED_LANGUAGES.contains targetLang then none
      else some ("Unsupported targetLang \"" ++ targetLang ++ "\", defaulting to English.")
    if file.mimetype = "application/pdf" then
      if file.sizeBytes ≤ INLINE_THRESHOLD then
        ⟨warning, Outcome.documentCaption targetLang⟩
      else if uploadUrl.getD "" = "" then
        ⟨warning, Outcome.uploadFailed⟩
      else
        ⟨warning, Outcome.largePdfPrompt (uploadUrl.getD "") targetLang⟩
    else if isImage file.mimetype then
      ⟨warning, Outcome.imageCaption file.mimetype targetLang⟩
    else
      ⟨warning, Outcome.badRequest "Unsupported file type. Upload an image or PDF."⟩

/-- The language of the caption request, if the run makes one. -/
def passedLanguage (t : Trace) : Option String :=
  match t.outcome with
  | Outcome.documentCaption l => some l
  | Outcome.largePdfPrompt _ l => some l
  | Outcome.imageCaption _ l => some l
  | _ => none

end PostController

namespace OfflineBot

/-! ## Storage lemmas -/

theorem keys_ne : LOCALSTORAGE_KEY ≠ DECLINED_KEY := by decide

theorem getItem_removeItem_same (st : Storage) (k : String) :
    getItem (removeItem st k) k = none := by
  induction st with
  | nil => rfl
  | cons p rest ih =>
    obtain ⟨a, b⟩ := p
    by_cases h : a = k
    · simp [removeItem, h, ih]
    · simp [removeItem, getItem, h, ih]

theorem getItem_removeItem_ne (st : Storage) {k j : String} (h : k ≠ j) :
    getItem (removeItem st k) j = getItem st j := by
  induction st with
  | nil => rfl
  | cons p rest ih =>
    obtain ⟨a, b⟩ := p
    by_cases h1 : a = k
    · have h2 : a ≠ j := by rw [h1]; exact h
      simp [removeItem, getItem, h1, ih, h]
    · by_cases h2 : a = j
      · subst h2
        simp [removeItem, getItem, h1]
      · simp [removeItem, getItem, h1, h2, ih]

theorem getItem_setItem_same (st : Storage) (k v : String) :
    getItem (setItem st k v) k = some v := by
  simp [setItem, getItem]

theorem getItem_setItem_ne (st : Storage) {k j : String} (v : String) (h : k ≠ j) :
    getItem (setItem st k v) j = getItem st j := by
  simp [setItem, getItem, h, getItem_removeItem_ne st h]

/-! ## What each handler does to `localStorage` -/

@[simp] theorem adoptEngine_localStorage (e : Engine) (s : State) :
    (adoptEngine e s).localStorage = s.localStorage := rfl

@[simp] theorem simulateResponse_localStorage (s : State) :
    (simulateResponse s).localStorage = s.localStorage := rfl

@[simp] theorem simulateTimeout_localStorage (s : State) :
    (simulateTimeout s).localStorage = s.localStorage := by
  unfold simulateTimeout; split <;> rfl

@[simp] theorem abortHeld_localStorage (s : State) :
    (abortHeld s).localStorage = s.localStorage := by
  unfold abortHeld; split <;> rfl

@[simp] theorem generateWithEngine_localStorage (t : String) (h : List Message) (s : State) :
    (generateWithEngine t h s).localStorage = s.localStorage := by
  unfold generateWithEngine
  split
  · rfl
  · split <;> simp

@[simp] theorem sendAfterInit_localStorage (t : String) (h : List Message) (s : State) :
    (sendAfterInit t h s).localStorage = s.localStorage := by
  unfold sendAfterInit; split <;> simp

@[simp] theorem resume_localStorage (k : AcqCont) (s : State) :
    (resume k s).localStorage = s.localStorage := by
  cases k <;> simp [resume]

@[simp] theorem startDownloadAndInit_localStorage (k : AcqCont) (s : State) :
    (startDownloadAndInit k s).localStorage = s.localStorage := by
  unfold startDownloadAndInit; split <;> simp

@[simp] theorem handleSend_localStorage (s : State) :
    (handleSend s).localStorage = s.localStorage := by
  unfold handleSend
  split
  · rfl
  · simp only []
    split
    · simp
    · split
      · simp
      · split <;> simp

@[simp] theorem handleStop_localStorage (s : State) :
    (handleStop s).localStorage = s.localStorage := by
  unfold handleStop; split <;> rfl

@[simp] theorem onClickDownloadButton_localStorage (s : State) :
    (onClickDownloadButton s).localStorage = s.localStorage := by
  unfold onClickDownloadButton; split <;> simp

@[simp] theorem unmount_localStorage (s : State) :
    (unmount s).localStorage = s.localStorage := by
  unfold unmount; split <;> rfl

@[simp] theorem onProgress_localStorage (r : Report) (s : State) :
    (onProgress r s).localStorage = s.localStorage := by
  unfold onProgress
  split
  · rfl
  · simp only []
    split
    · rfl
    · split <;> rfl

@[simp] theorem onChunk_localStorage (t : GenTask) (p : Option String) (s : State) :
    (onChunk t p s).localStorage = s.localStorage := rfl

@[simp] theorem generateFinally_localStorage (t : GenTask) (s : State) :
    (generateFinally t s).localStorage = s.localStorage := rfl

@[simp] theorem onStreamError_localStorage (t : GenTask) (n : String) (m : Option String)
    (s : State) : (onStreamError t n m s).localStorage = s.localStorage := by
  unfold onStreamError; simp only []; split <;> rfl

@[simp] theorem dropAcq_localStorage (id : Nat) (s : State) :
    (dropAcq id s).localStorage = s.localStorage := rfl

/-! ## The consent flags along a run -/

/-- The flags read from the store are not both set. -/
theorem exclusive_of_localStorage_eq {s t : State} (h : t.localStorage = s.localStorage)
    (h0 : ¬ (artifactDownloaded s = true ∧ downloadDeclined s = true)) :
    ¬ (artifactDownloaded t = true ∧ downloadDeclined t = true) := by
  simpa [artifactDownloaded, downloadDeclined, h] using h0

theorem mount_flags_exclusive (c : Confirm) (s : State)
    (h0 : ¬ (artifactDownloaded s = true ∧ downloadDeclined s = true)) :
    ¬ (artifactDownloaded (mount c s) = true ∧ downloadDeclined (mount c s) = true) := by
  unfold mount
  simp only []
  split
  · exact exclusive_of_localStorage_eq (by simp) h0
  · split
    · exact exclusive_of_localStorage_eq rfl h0
    · split
      · exact exclusive_of_localStorage_eq rfl h0
      · rename_i hd _
        cases c
        · exact exclusive_of_localStorage_eq (by simp) h0
        · intro h
          apply hd
          have := h.1
          simpa [artifactDownloaded, getItem_setItem_ne _ _ (Ne.symm keys_ne)] using this
        · exact exclusive_of_localStorage_eq rfl h0

theorem initResolved_flags_exclusive (eng : Engine) (s : State)
    (h0 : ¬ (artifactDownloaded s = true ∧ downloadDeclined s = true)) :
    ¬ (artifactDownloaded (initResolved eng s) = true
        ∧ downloadDeclined (initResolved eng s) = true) := by
  unfold initResolved
  split
  · exact exclusive_of_localStorage_eq rfl h0
  · intro h
    have := h.2
    simp [downloadDeclined, getItem_removeItem_same] at this

theorem initRejected_flags_exclusive (s : State) (h : artifactDownloaded s = false) :
    ¬ (artifactDownloaded (initRejected s) = true ∧ downloadDeclined (initRejected s) = true) := by
  intro h1
  have h2 := h1.1
  simp only [artifactDownloaded, initRejected, getItem_setItem_ne _ _ (Ne.symm keys_ne)] at h2 h
  simp [h2] at h

/-- One event keeps the flags exclusive unless it is the failure of a pending
acquisition delivered while the artifact flag is set. -/
theorem step_flags_exclusive (s : State) (ev : Event)
    (h0 : ¬ (artifactDownloaded s = true ∧ downloadDeclined s = true))
    (h1 : failsWhileDownloaded s ev = false) :
    ¬ (artifactDownloaded (step s ev) = true ∧ downloadDeclined (step s ev) = true) := by
  cases ev with
  | mount c => exact mount_flags_exclusive c s h0
  | unmount => exact exclusive_of_localStorage_eq (by simp [step]) h0
  | setInput text => exact exclusive_of_localStorage_eq rfl h0
  | send => exact exclusive_of_localStorage_eq (by simp [step]) h0
  | stop => exact exclusive_of_localStorage_eq (by simp [step]) h0
  | clickDownload => exact exclusive_of_localStorage_eq (by simp [step]) h0
  | progress task r =>
    refine exclusive_of_localStorage_eq ?_ h0
    simp only [step]; split <;> simp
  | initResolved task eng =>
    simp only [step]
    split
    · refine exclusive_of_localStorage_eq (resume_localStorage _ _) ?_
      exact initResolved_flags_exclusive eng _ (exclusive_of_localStorage_eq rfl h0)
    · exact h0
  | initRejected task =>
    simp only [step]
    split
    · rename_i a ha
      refine exclusive_of_localStorage_eq (resume_localStorage _ _) ?_
      apply initRejected_flags_exclusive
      simpa [failsWhileDownloaded, ha, artifactDownloaded] using h1
    · exact h0
  | chunk task piece =>
    refine exclusive_of_localStorage_eq ?_ h0
    simp only [step]; split <;> simp
  | streamEnd task =>
    refine exclusive_of_localStorage_eq ?_ h0
    simp only [step]; split <;> simp
  | streamError task name message =>
    refine exclusive_of_localStorage_eq ?_ h0
    simp only [step]; split <;> simp
  | timeout => exact exclusive_of_localStorage_eq (by simp [step]) h0

/-- C1, counterexample: on a device whose artifact flag is set and whose declined
flag is not, the component mounts, the user sends "hi", and the engine creation
started by that message throws; both flags are then set. -/
theorem flags_both_set_after_failed_lazy_init :
    downloadDeclined (initialState [(LOCALSTORAGE_KEY, "1")] none) = false
    ∧ artifactDownloaded (run (initialState [(LOCALSTORAGE_KEY, "1")] none)
        [Event.mount Confirm.ok, Event.setInput "hi", Event.send, Event.initRejected 0]) = true
    ∧ downloadDeclined (run (initialState [(LOCALSTORAGE_KEY, "1")] none)
        [Event.mount Confirm.ok, Event.setInput "hi", Event.send, Event.initRejected 0]) = true := by
  decide

/-- C1, amended: from a state whose persisted flags are not both set, every
sequence of events in which no pending acquisition fails while the artifact flag
is set leads to a state whose persisted flags are not both set. -/
theorem flags_exclusive_without_failure_while_downloaded (s : State) (evs : List Event)
    (h0 : ¬ (artifactDownloaded s = true ∧ downloadDeclined s = true))
    (h1 : noFailureWhileDownloaded s evs = true) :
    ¬ (artifactDownloaded (run s evs) = true ∧ downloadDeclined (run s evs) = true) := by
  induction evs generalizing s with
  | nil => exact h0
  | cons ev rest ih =>
    simp only [noFailureWhileDownloaded, Bool.and_eq_true, Bool.not_eq_true'] at h1
    exact ih (step s ev) (step_flags_exclusive s ev h0 h1.1) h1.2

/-- C1, amended, at a fresh device: the user accepts the download, it fails, the
download button is clicked and the second attempt succeeds. -/
theorem flags_exclusive_without_failure_while_downloaded_witness :
    ¬ (artifactDownloaded (initialState [] none) = true
        ∧ downloadDeclined (initialState [] none) = true)
    ∧ noFailureWhileDownloaded (initialState [] none)
        [Event.mount Confirm.ok, Event.initRejected 0, Event.clickDownload,
          Event.initResolved 1 ⟨7, true, true⟩] = true
    ∧ ¬ (artifactDownloaded (run (initialState [] none)
          [Event.mount Confirm.ok, Event.initRejected 0, Event.clickDownload,
            Event.initResolved 1 ⟨7, true, true⟩]) = true
        ∧ downloadDeclined (run (initialState [] none)
          [Event.mount Confirm.ok, Event.initRejected 0, Event.clickDownload,
            Event.initResolved 1 ⟨7, true, true⟩]) = true) :=
  ⟨by decide, by decide,
    flags_exclusive_without_failure_while_downloaded (initialState [] none)
      [Event.mount Confirm.ok, Event.initRejected 0, Event.clickDownload,
        Event.initResolved 1 ⟨7, true, true⟩] (by decide) (by decide)⟩

/-! ## Sending while busy -/

/-- C2: while an acquisition is in flight (`isDownloading`) or a generation is in
flight (`isLoading`), `handleSend` returns the state it was given, whatever the
input text: no message is appended and no acquisition or stream is started. -/
theorem handleSend_noop_while_busy (s : State)
    (h : s.isDownloading = true ∨ s.isLoading = true) :
    handleSend s = s ∧ step s Event.send = s
      ∧ ∀ text : String, submitTurn text s = { s with input := text } := by
  have key : ∀ u : State, (u.isDownloading = true ∨ u.isLoading = true) → handleSend u = u := by
    intro u hu
    unfold handleSend
    rcases hu with hu | hu <;> simp [hu]
  exact ⟨key s h, key s h, fun text => key { s with input := text } h⟩

/-- C2 at a state where a stream is in flight. -/
theorem handleSend_noop_while_busy_witness :
    ((run (readyState ⟨1, true, true⟩) [Event.setInput "a", Event.send]).isDownloading = true
      ∨ (run (readyState ⟨1, true, true⟩) [Event.setInput "a", Event.send]).isLoading = true)
    ∧ ∀ text : String,
      submitTurn text (run (readyState ⟨1, true, true⟩) [Event.setInput "a", Event.send])
        = { run (readyState ⟨1, true, true⟩) [Event.setInput "a", Event.send] with
            input := text } :=
  ⟨by decide,
    (handleSend_noop_while_busy
      (run (readyState ⟨1, true, true⟩) [Event.setInput "a", Event.send]) (by decide)).2.2⟩

/-! ## One streamed turn -/

theorem strOr_empty (a : String) : strOr a "" = a := by
  unfold strOr; split <;> simp_all

theorem run_append (s : State) (xs ys : List Event) :
    run s (xs ++ ys) = run (run s xs) ys := by
  simp [run, List.foldl_append]

/-- A turn sent while idle to a loaded engine that has the chat capability. -/
theorem handleSend_ready (s : State) (eng : Engine)
    (h1 : s.isLoading = false) (h2 : s.isDownloading = false)
    (h3 : s.engineRef = some eng) (h4 : eng.hasChat = true) (h5 : s.modelLoadedRef = true)
    (h6 : jsTrim s.input ≠ "") :
    handleSend s =
      { abortHeld s with
        input := ""
        abortRef := some s.nextId
        isLoading := true
        messages := s.messages ++ [⟨Role.user, jsTrim s.input⟩, msgPlaceholder]
        gens := s.gens ++ [⟨s.nextId, s.nextId, "", chatHistory s.messages (jsTrim s.input)⟩]
        nextId := s.nextId + 1 } := by
  obtain ⟨messages, input, isLoading, isDownloading, internalInitStatus, internalProgress,
    showDownloadButton, engineRef, modelLoadedRef, userDeclinedRef, abortRef, disposedRef,
    windowEngine, localStorage, acqs, gens, timers, cleanup, aborted, disposedEngines,
    confirmCalls, createCalls, nextId⟩ := s
  simp only at h1 h2 h3 h4 h5 h6
  subst h1 h2 h3 h5
  cases abortRef <;> simp [handleSend, generateWithEngine, abortHeld, h4, h6]

/-- One chunk read by the only suspended stream, the conversation ending with a
model message. -/
theorem step_chunk_single (base : State) (m : List Message) (c : String) (id : Nat)
    (acc : String) (pr : List ChatMessage) (p : Option String) :
    step { base with messages := m ++ [⟨Role.model, c⟩], gens := [⟨id, id, acc, pr⟩] }
        (Event.chunk id p)
      = { base with
          messages := m ++ [⟨Role.model, acc ++ p.getD ""⟩]
          gens := [⟨id, id, acc ++ p.getD "", pr⟩] } := by
  have hacc : (if strOr (p.getD "") "" = "" then acc else acc ++ strOr (p.getD "") "")
      = acc ++ p.getD "" := by
    rw [strOr_empty]; split
    · rename_i h; simp [h]
    · rfl
  simp [step, findGen, onChunk, streamUpdate, hacc]

theorem step_chunk_of (u : State) (m : List Message) (c : String) (id : Nat)
    (acc : String) (pr : List ChatMessage) (p : Option String)
    (hm : u.messages = m ++ [⟨Role.model, c⟩]) (hg : u.gens = [⟨id, id, acc, pr⟩]) :
    step u (Event.chunk id p)
      = { u with
          messages := m ++ [⟨Role.model, acc ++ p.getD ""⟩]
          gens := [⟨id, id, acc ++ p.getD "", pr⟩] } := by
  have h := step_chunk_single u m c id acc pr p
  rw [← hm, ← hg] at h
  exact h

/-- The chunks of the only suspended stream, read one after the other, replace
the trailing model message by the text accumulated so far. -/
theorem run_chunks (pieces : List (Option String)) (u : State) (m : List Message) (c : String)
    (id : Nat) (acc : String) (pr : List ChatMessage)
    (hm : u.messages = m ++ [⟨Role.model, c⟩]) (hg : u.gens = [⟨id, id, acc, pr⟩]) :
    run u (pieces.map (Event.chunk id))
      = { u with
          messages := m ++ [⟨Role.model, if pieces = [] then c else acc ++ deliveredText pieces⟩]
          gens := [⟨id, id, acc ++ deliveredText pieces, pr⟩] } := by
  induction pieces generalizing u c acc with
  | nil =>
    simp [run, deliveredText, ← hm, ← hg]
  | cons p ps ih =>
    simp only [run, List.map_cons, List.foldl_cons]
    rw [step_chunk_of u m c id acc pr p hm hg]
    have := ih { u with
          messages := m ++ [⟨Role.model, acc ++ p.getD ""⟩]
          gens := [⟨id, id, acc ++ p.getD "", pr⟩] } (acc ++ p.getD "") (acc ++ p.getD "") rfl rfl
    simp only [run] at this
    rw [this]
    by_cases hps : ps = []
    · simp [hps, deliveredText]
    · simp [hps, deliveredText, String.append_assoc]

theorem deliveredText_append (xs ys : List (Option String)) :
    deliveredText (xs ++ ys) = deliveredText xs ++ deliveredText ys := by
  induction xs with
  | nil => simp [deliveredText]
  | cons x xs ih => simp [deliveredText, ih, String.append_assoc]

theorem streamedContent_append (pieces late : List (Option String)) :
    (if late = [] then (if pieces = [] then " " else "" ++ deliveredText pieces)
      else ("" ++ deliveredText pieces) ++ deliveredText late)
      = streamedContent (pieces ++ late) := by
  unfold streamedContent
  by_cases hl : late = []
  · subst hl
    by_cases hp : pieces = [] <;> simp [hp]
  · simp [hl, deliveredText_append]

/-- The state after a cancelled turn. -/
theorem cancelledTurn_state (s : State) (eng : Engine) (text : String)
    (pieces late : List (Option String)) (message : Option String)
    (h1 : s.isLoading = false) (h2 : s.isDownloading = false)
    (h3 : s.engineRef = some eng) (h4 : eng.hasChat = true) (h5 : s.modelLoadedRef = true)
    (h6 : s.gens = []) (h7 : jsTrim text ≠ "") :
    run s (cancelledTurn s text pieces late message)
      = { abortHeld s with
          input := ""
          abortRef := none
          isLoading := false
          messages := s.messages ++ [⟨Role.user, jsTrim text⟩,
            ⟨Role.model, streamedContent (pieces ++ late)⟩, msgCancelled]
          gens := []
          aborted := s.nextId :: (abortHeld s).aborted
          nextId := s.nextId + 1 } := by
  unfold cancelledTurn
  rw [run_append, run_append, run_append, run_append]
  have hs : run s [Event.setInput text, Event.send] = handleSend { s with input := text } := rfl
  rw [hs, handleSend_ready { s with input := text } eng h1 h2 h3 h4 h5 h7]
  rw [run_chunks pieces _ (s.messages ++ [⟨Role.user, jsTrim text⟩]) " " s.nextId ""
    (chatHistory s.messages (jsTrim text)) (by simp [msgPlaceholder])
    (by simp [h6])]
  rw [run_chunks late _ (s.messages ++ [⟨Role.user, jsTrim text⟩])
    (if pieces = [] then " " else "" ++ deliveredText pieces) s.nextId
    ("" ++ deliveredText pieces) (chatHistory s.messages (jsTrim text))
    (by simp [run, step, handleStop]) (by simp [run, step, handleStop])]
  rw [streamedContent_append]
  obtain ⟨messages, input, isLoading, isDownloading, internalInitStatus, internalProgress,
    showDownloadButton, engineRef, modelLoadedRef, userDeclinedRef, abortRef, disposedRef,
    windowEngine, localStorage, acqs, gens, timers, cleanup, aborted, disposedEngines,
    confirmCalls, createCalls, nextId⟩ := s
  cases abortRef <;>
    simp [run, step, handleStop, findGen, onStreamError, generateFinally, abortHeld]

/-- C4: a turn is sent in an idle state whose loaded engine has the chat
capability, its stream yields any number of chunks, the user stops it, the
chunks still in flight arrive, and the stream throws an `AbortError`.  The
conversation is then the earlier one followed by the user message, the model
message streamed so far and one "Generation cancelled." message; `isLoading` is
false, the token slot is empty, no stream is suspended, and the next non-blank
text sent is accepted. -/
theorem cancelled_stream (s : State) (eng : Engine) (text : String)
    (pieces late : List (Option String)) (message : Option String)
    (h1 : s.isLoading = false) (h2 : s.isDownloading = false)
    (h3 : s.engineRef = some eng) (h4 : eng.hasChat = true) (h5 : s.modelLoadedRef = true)
    (h6 : s.gens = []) (h7 : jsTrim text ≠ "") :
    (run s (cancelledTurn s text pieces late message)).messages
      = s.messages ++ [⟨Role.user, jsTrim text⟩,
          ⟨Role.model, streamedContent (pieces ++ late)⟩, msgCancelled]
    ∧ (run s (cancelledTurn s text pieces late message)).isLoading = false
    ∧ (run s (cancelledTurn s text pieces late message)).isDownloading = false
    ∧ (run s (cancelledTurn s text pieces late message)).abortRef = none
    ∧ (run s (cancelledTurn s text pieces late message)).gens = []
    ∧ s.nextId ∈ (run s (cancelledTurn s text pieces late message)).aborted
    ∧ ∀ next : String, jsTrim next ≠ "" →
        (submitTurn next (run s (cancelledTurn s text pieces late message))).messages
        = s.messages ++ [⟨Role.user, jsTrim text⟩,
            ⟨Role.model, streamedContent (pieces ++ late)⟩,
            msgCancelled, ⟨Role.user, jsTrim next⟩, msgPlaceholder] := by
  have hd : (abortHeld s).isDownloading = false := by
    cases h : s.abortRef <;> simp [abortHeld, h, h2]
  rw [cancelledTurn_state s eng text pieces late message h1 h2 h3 h4 h5 h6 h7]
  refine ⟨rfl, rfl, hd, rfl, rfl, by simp, ?_⟩
  intro next hnext
  unfold submitTurn
  rw [handleSend_ready _ eng rfl (by cases h : s.abortRef <;> simp [abortHeld, h, h2])
    (by cases h : s.abortRef <;> simp [abortHeld, h, h3]) h4
    (by cases h : s.abortRef <;> simp [abortHeld, h, h5]) hnext]
  simp

/-- C4 at a stream stopped after the chunks "a" and an empty one, with the chunk
"b" still in flight. -/
theorem cancelled_stream_witness :
    (readyState ⟨1, true, true⟩).isLoading = false
    ∧ (readyState ⟨1, true, true⟩).gens = []
    ∧ jsTrim " hi " ≠ ""
    ∧ (run (readyState ⟨1, true, true⟩)
        (cancelledTurn (readyState ⟨1, true, true⟩) " hi " [some "a", none] [some "b"]
          none)).messages
      = (readyState ⟨1, true, true⟩).messages
          ++ [⟨Role.user, jsTrim " hi "⟩,
              ⟨Role.model, streamedContent ([some "a", none] ++ [some "b"])⟩, msgCancelled] :=
  ⟨by decide, by decide, by decide,
    (cancelled_stream (readyState ⟨1, true, true⟩) ⟨1, true, true⟩ " hi "
      [some "a", none] [some "b"] none (by decide) (by decide) (by decide) (by decide)
      (by decide) (by decide) (by decide)).1⟩

/-- Whatever else is going on, a suspended stream that throws an `AbortError`
appends one "Generation cancelled." message, clears `isLoading` and empties the
token slot. -/
theorem abortError_appends_cancelled (s : State) (task : Nat) (t : GenTask)
    (message : Option String) (h : findGen s task = some t) :
    (step s (Event.streamError task "AbortError" message)).messages
        = s.messages ++ [msgCancelled]
      ∧ (step s (Event.streamError task "AbortError" message)).isLoading = false
      ∧ (step s (Event.streamError task "AbortError" message)).abortRef = none := by
  simp [step, h, onStreamError, generateFinally]

/-! ## Streams that overlap -/

/-- C3, evaluated: a turn is sent, its stream yields "x" and the user stops it;
a second turn is sent before the stopped stream has thrown.  Two calls of
`generateWithEngine` are then suspended at once.  A chunk of the stopped stream
overwrites the message of the second stream, and the `finally` block of the
stopped stream empties the token slot and clears `isLoading` while the second
stream, whose token was never signalled, is still suspended. -/
theorem stopped_stream_overlaps_next :
    (run (readyState ⟨1, true, true⟩) overlapTrace).gens.map (fun g => g.id) = [0, 1]
    ∧ (run (readyState ⟨1, true, true⟩) overlapTrace).abortRef = some 1
    ∧ (run (readyState ⟨1, true, true⟩) overlapTrace).aborted = [0]
    ∧ (run (readyState ⟨1, true, true⟩) overlapTrace).messages
        = [⟨Role.user, "a"⟩, ⟨Role.model, "x"⟩, ⟨Role.user, "b"⟩, ⟨Role.model, " "⟩]
    ∧ (run (readyState ⟨1, true, true⟩)
          (overlapTrace ++ [Event.chunk 0 (some "late")])).messages
        = [⟨Role.user, "a"⟩, ⟨Role.model, "x"⟩, ⟨Role.user, "b"⟩, ⟨Role.model, "xlate"⟩]
    ∧ (run (readyState ⟨1, true, true⟩)
          (overlapTrace ++ [Event.streamError 0 "AbortError" none])).gens.map (fun g => g.id)
        = [1]
    ∧ (run (readyState ⟨1, true, true⟩)
          (overlapTrace ++ [Event.streamError 0 "AbortError" none])).abortRef = none
    ∧ (run (readyState ⟨1, true, true⟩)
          (overlapTrace ++ [Event.streamError 0 "AbortError" none])).isLoading = false
    ∧ (run (readyState ⟨1, true, true⟩)
          (overlapTrace ++ [Event.streamError 0 "AbortError" none])).aborted = [0]
    ∧ (run (readyState ⟨1, true, true⟩)
          (overlapTrace ++ [Event.streamError 0 "AbortError" none,
            Event.setInput "c", Event.send])).gens.map (fun g => g.id) = [1, 2]
    ∧ (run (readyState ⟨1, true, true⟩)
          (overlapTrace ++ [Event.streamError 0 "AbortError" none,
            Event.setInput "c", Event.send])).aborted = [0] := by
  decide

/-- The part of C3 that holds: when `generateWithEngine` starts a stream, the
token held before is signalled and the slot holds the fresh token. -/
theorem generateWithEngine_cancels_held (t : String) (h : List Message) (s : State)
    (eng : Engine) (c : Nat) (h1 : s.engineRef = some eng) (h2 : eng.hasChat = true)
    (h3 : s.abortRef = some c) :
    c ∈ (generateWithEngine t h s).aborted
      ∧ (generateWithEngine t h s).abortRef = some s.nextId := by
  simp [generateWithEngine, h1, h2, abortHeld, h3]

/-! ## Acquisition when the engine exists -/

theorem resume_frame (k : AcqCont) (s : State) :
    (resume k s).engineRef = s.engineRef
      ∧ (resume k s).windowEngine = s.windowEngine
      ∧ (resume k s).modelLoadedRef = s.modelLoadedRef
      ∧ (resume k s).isDownloading = s.isDownloading
      ∧ (resume k s).createCalls = s.createCalls
      ∧ (resume k s).acqs = s.acqs
      ∧ (resume k s).userDeclinedRef = s.userDeclinedRef
      ∧ (resume k s).confirmCalls = s.confirmCalls := by
  obtain ⟨messages, input, isLoading, isDownloading, internalInitStatus, internalProgress,
    showDownloadButton, engineRef, modelLoadedRef, userDeclinedRef, abortRef, disposedRef,
    windowEngine, localStorage, acqs, gens, timers, cleanup, aborted, disposedEngines,
    confirmCalls, createCalls, nextId⟩ := s
  cases k with
  | done => simp [resume]
  | send t h =>
    simp only [resume, sendAfterInit]
    split
    · simp only [generateWithEngine]
      split
      · simp
      · split
        · simp
        · cases abortRef <;> simp [abortHeld]
    · simp [simulateResponse]

/-- C5: when a process-wide engine is already published, `startDownloadAndInit`
adopts that engine in the session, does not call `lazyCreateEngine`, suspends no
acquisition and leaves `localStorage` and the process-wide slot as they were,
whoever called it; called from the mount effect or the download button it leaves
the conversation unchanged. -/
theorem startDownloadAndInit_adopts_existing (k : AcqCont) (s : State) (e : Engine)
    (h : s.windowEngine = some e) :
    (startDownloadAndInit k s).engineRef = some e
      ∧ (startDownloadAndInit k s).modelLoadedRef = true
      ∧ (startDownloadAndInit k s).windowEngine = some e
      ∧ (startDownloadAndInit k s).createCalls = s.createCalls
      ∧ (startDownloadAndInit k s).acqs = s.acqs
      ∧ (startDownloadAndInit k s).isDownloading = s.isDownloading
      ∧ (startDownloadAndInit k s).localStorage = s.localStorage
      ∧ (startDownloadAndInit AcqCont.done s).messages = s.messages := by
  obtain ⟨h1, h2, h3, h4, h5, h6, -, -⟩ := resume_frame k (adoptEngine e s)
  simp only [startDownloadAndInit, h]
  refine ⟨by rw [h1]; rfl, by rw [h3]; rfl, by rw [h2]; exact h, by rw [h5]; rfl,
    by rw [h6]; rfl, by rw [h4]; rfl, by simp, rfl⟩

/-- C5 after a successful acquisition: the download button is clicked again. -/
theorem startDownloadAndInit_adopts_existing_witness :
    (run (initialState [] none)
        [Event.mount Confirm.ok, Event.initResolved 0 ⟨7, true, true⟩]).windowEngine
      = some ⟨7, true, true⟩
    ∧ (startDownloadAndInit AcqCont.done (run (initialState [] none)
        [Event.mount Confirm.ok, Event.initResolved 0 ⟨7, true, true⟩])).createCalls
      = (run (initialState [] none)
        [Event.mount Confirm.ok, Event.initResolved 0 ⟨7, true, true⟩]).createCalls :=
  ⟨by decide,
    (startDownloadAndInit_adopts_existing AcqCont.done (run (initialState [] none)
      [Event.mount Confirm.ok, Event.initResolved 0 ⟨7, true, true⟩]) ⟨7, true, true⟩
      (by decide)).2.2.2.1⟩

/-! ## The mount effect -/

/-- C6: the mount effect decides by priority.  With a process-wide engine the
session adopts it and the model is loaded.  Otherwise, with the artifact flag
set, the model is marked not loaded and nothing is started.  Otherwise, with the
declined flag set, the session is marked declined.  Otherwise `window.confirm`
is called.  In the first three cases `window.confirm` is not called and no
acquisition is started. -/
theorem mount_initial_resolution (c : Confirm) (s : State) :
    (∀ e, s.windowEngine = some e →
      (mount c s).engineRef = some e
        ∧ (mount c s).modelLoadedRef = true
        ∧ (mount c s).confirmCalls = s.confirmCalls
        ∧ (mount c s).acqs = s.acqs
        ∧ (mount c s).createCalls = s.createCalls)
    ∧ (s.windowEngine = none → artifactDownloaded s = true →
      (mount c s).modelLoadedRef = false
        ∧ (mount c s).engineRef = s.engineRef
        ∧ (mount c s).userDeclinedRef = s.userDeclinedRef
        ∧ (mount c s).isDownloading = s.isDownloading
        ∧ (mount c s).confirmCalls = s.confirmCalls
        ∧ (mount c s).acqs = s.acqs
        ∧ (mount c s).createCalls = s.createCalls)
    ∧ (s.windowEngine = none → artifactDownloaded s = false → downloadDeclined s = true →
      (mount c s).userDeclinedRef = true
        ∧ (mount c s).showDownloadButton = true
        ∧ (mount c s).engineRef = s.engineRef
        ∧ (mount c s).confirmCalls = s.confirmCalls
        ∧ (mount c s).acqs = s.acqs
        ∧ (mount c s).createCalls = s.createCalls)
    ∧ (s.windowEngine = none → artifactDownloaded s = false → downloadDeclined s = false →
      (mount c s).confirmCalls = s.confirmCalls + 1) := by
  refine ⟨?_, ?_, ?_, ?_⟩
  · intro e h
    simp [mount, h, adoptEngine]
  · intro h hd
    simp only [artifactDownloaded, decide_eq_true_eq] at hd
    simp [mount, h, hd]
  · intro h hd hn
    simp only [artifactDownloaded, downloadDeclined, decide_eq_true_eq,
      decide_eq_false_iff_not] at hd hn
    simp [mount, h, hd, hn]
  · intro h hd hn
    simp only [artifactDownloaded, downloadDeclined, decide_eq_false_iff_not] at hd hn
    cases c <;> simp [mount, h, hd, hn, startDownloadAndInit]

/-- C6 on the four kinds of device. -/
theorem mount_initial_resolution_witness :
    (mount Confirm.ok (initialState [(DECLINED_KEY, "1")] (some ⟨7, true, true⟩))).engineRef
      = some ⟨7, true, true⟩
    ∧ (mount Confirm.ok (initialState [(LOCALSTORAGE_KEY, "1"), (DECLINED_KEY, "1")]
        none)).modelLoadedRef = false
    ∧ (mount Confirm.ok (initialState [(DECLINED_KEY, "1")] none)).userDeclinedRef = true
    ∧ (mount Confirm.ok (initialState [] none)).confirmCalls
      = (initialState [] none).confirmCalls + 1 :=
  ⟨((mount_initial_resolution Confirm.ok
      (initialState [(DECLINED_KEY, "1")] (some ⟨7, true, true⟩))).1 _ rfl).1,
    ((mount_initial_resolution Confirm.ok
      (initialState [(LOCALSTORAGE_KEY, "1"), (DECLINED_KEY, "1")] none)).2.1 rfl
        (by decide)).1,
    ((mount_initial_resolution Confirm.ok
      (initialState [(DECLINED_KEY, "1")] none)).2.2.1 rfl (by decide) (by decide)).1,
    (mount_initial_resolution Confirm.ok (initialState [] none)).2.2.2 rfl (by decide)
      (by decide)⟩

/-- C7: on a device with no process-wide engine and neither flag set, the mount
effect asks for consent; when the user declines, the declined key is set to "1"
and the artifact key reads as before.  Any later session mounted over the
resulting store with no process-wide engine is marked declined, shows the
download button, and neither calls `window.confirm` nor starts an acquisition. -/
theorem decline_persists (store : Storage)
    (h1 : getItem store LOCALSTORAGE_KEY ≠ some "1")
    (h2 : getItem store DECLINED_KEY ≠ some "1") :
    (mount Confirm.cancel (initialState store none)).confirmCalls = 1
    ∧ (mount Confirm.cancel (initialState store none)).userDeclinedRef = true
    ∧ getItem (mount Confirm.cancel (initialState store none)).localStorage DECLINED_KEY
        = some "1"
    ∧ getItem (mount Confirm.cancel (initialState store none)).localStorage LOCALSTORAGE_KEY
        = getItem store LOCALSTORAGE_KEY
    ∧ ∀ c : Confirm,
        (mount c (initialState
            (mount Confirm.cancel (initialState store none)).localStorage none)).userDeclinedRef
          = true
        ∧ (mount c (initialState
            (mount Confirm.cancel (initialState store none)).localStorage none)).showDownloadButton
          = true
        ∧ (mount c (initialState
            (mount Confirm.cancel (initialState store none)).localStorage none)).confirmCalls
          = 0
        ∧ (mount c (initialState
            (mount Confirm.cancel (initialState store none)).localStorage none)).createCalls
          = 0
        ∧ (mount c (initialState
            (mount Confirm.cancel (initialState store none)).localStorage none)).acqs
          = [] := by
  have hs : (mount Confirm.cancel (initialState store none)).localStorage
      = setItem store DECLINED_KEY "1" := by
    simp [mount, initialState, h1, h2]
  have hk : getItem (setItem store DECLINED_KEY "1") LOCALSTORAGE_KEY
      = getItem store LOCALSTORAGE_KEY := getItem_setItem_ne _ _ (Ne.symm keys_ne)
  have hd : getItem (setItem store DECLINED_KEY "1") DECLINED_KEY = some "1" :=
    getItem_setItem_same _ _ _
  rw [hs]
  refine ⟨by simp [mount, initialState, h1, h2], by simp [mount, initialState, h1, h2],
    hd, hk, ?_⟩
  intro c
  simp [mount, initialState, hk, hd, h1]

/-- C7 on a device whose store is empty. -/
theorem decline_persists_witness :
    getItem [] LOCALSTORAGE_KEY ≠ some "1"
    ∧ getItem [] DECLINED_KEY ≠ some "1"
    ∧ (mount Confirm.ok (initialState
        (mount Confirm.cancel (initialState [] none)).localStorage none)).userDeclinedRef
      = true
    ∧ (mount Confirm.ok (initialState
        (mount Confirm.cancel (initialState [] none)).localStorage none)).confirmCalls = 0 :=
  ⟨by decide, by decide,
    ((decline_persists [] (by decide) (by decide)).2.2.2.2 Confirm.ok).1,
    ((decline_persists [] (by decide) (by decide)).2.2.2.2 Confirm.ok).2.2.1⟩

/-! ## The end of an acquisition -/

/-- What the caller going on after `startDownloadAndInit` adds to the
conversation: nothing, the placeholder of a new stream, or the notice that the
engine has no chat API. -/
theorem resume_messages (k : AcqCont) (s : State) :
    (resume k s).messages = s.messages
      ∨ (resume k s).messages = s.messages ++ [msgPlaceholder]
      ∨ (resume k s).messages = s.messages ++ [msgNoChatApi] := by
  cases k with
  | done => exact Or.inl rfl
  | send t h =>
    simp only [resume, sendAfterInit]
    split
    · simp only [generateWithEngine]
      split
      · exact Or.inr (Or.inr rfl)
      · split
        · exact Or.inr (Or.inr rfl)
        · refine Or.inr (Or.inl ?_)
          cases h : s.abortRef <;> simp [abortHeld, h]
    · exact Or.inl rfl

theorem resume_messages_of_no_engine (k : AcqCont) (s : State)
    (h : k = AcqCont.done ∨ s.engineRef = none) : (resume k s).messages = s.messages := by
  rcases h with h | h
  · subst h; rfl
  · cases k with
    | done => rfl
    | send t hist => simp [resume, sendAfterInit, h, simulateResponse]

/-- C8: an acquisition is suspended and no teardown has been signalled.  When
its engine creation resolves with `eng`, that engine is published process-wide
and in the session, the artifact key is set to "1", the declined key is removed,
the model is marked loaded and `isDownloading` is false. -/
theorem acquisition_success_publishes (s : State) (task : Nat) (a : AcqTask) (eng : Engine)
    (h1 : findAcq s task = some a) (h2 : s.disposedRef = false) :
    (step s (Event.initResolved task eng)).windowEngine = some eng
      ∧ (step s (Event.initResolved task eng)).engineRef = some eng
      ∧ getItem (step s (Event.initResolved task eng)).localStorage LOCALSTORAGE_KEY
          = some "1"
      ∧ getItem (step s (Event.initResolved task eng)).localStorage DECLINED_KEY = none
      ∧ (step s (Event.initResolved task eng)).modelLoadedRef = true
      ∧ (step s (Event.initResolved task eng)).isDownloading = false := by
  obtain ⟨f1, f2, f3, f4, -, -, -, -⟩ :=
    resume_frame a.cont (initResolved eng (dropAcq task s))
  simp only [step, h1]
  rw [f1, f2, f3, f4, resume_localStorage]
  have hd : (dropAcq task s).disposedRef = false := h2
  simp only [initResolved, hd]
  refine ⟨rfl, rfl, ?_, ?_, rfl, rfl⟩
  · simp only [Bool.false_eq_true, if_false]
    rw [getItem_removeItem_ne _ (Ne.symm keys_ne)]
    exact getItem_setItem_same _ _ _
  · simp only [Bool.false_eq_true, if_false]
    exact getItem_removeItem_same _ _

/-- C8 on a device with neither flag set: the user accepts the download and the
engine creation resolves. -/
theorem acquisition_success_publishes_witness :
    findAcq (mount Confirm.ok (initialState [(DECLINED_KEY, "0")] none)) 0
      = some ⟨0, AcqCont.done⟩
    ∧ (mount Confirm.ok (initialState [(DECLINED_KEY, "0")] none)).disposedRef = false
    ∧ (step (mount Confirm.ok (initialState [(DECLINED_KEY, "0")] none))
        (Event.initResolved 0 ⟨7, true, false⟩)).windowEngine = some ⟨7, true, false⟩ :=
  ⟨by decide, by decide,
    (acquisition_success_publishes (mount Confirm.ok (initialState [(DECLINED_KEY, "0")] none))
      0 ⟨0, AcqCont.done⟩ ⟨7, true, false⟩ (by decide) (by decide)).1⟩

/-- C9: an acquisition is suspended.  When its engine creation throws, the declined
key is set to "1", the artifact key reads as before, neither the process-wide
slot nor the session's engine changes, `isDownloading` is false, and the
conversation grows by the failure message, followed by nothing unless the
caller is `handleSend` and goes on to `generateWithEngine`. -/
theorem acquisition_failure_declines (s : State) (task : Nat) (a : AcqTask)
    (h1 : findAcq s task = some a) :
    getItem (step s (Event.initRejected task)).localStorage DECLINED_KEY = some "1"
      ∧ getItem (step s (Event.initRejected task)).localStorage LOCALSTORAGE_KEY
          = getItem s.localStorage LOCALSTORAGE_KEY
      ∧ (step s (Event.initRejected task)).windowEngine = s.windowEngine
      ∧ (step s (Event.initRejected task)).engineRef = s.engineRef
      ∧ (step s (Event.initRejected task)).userDeclinedRef = true
      ∧ (step s (Event.initRejected task)).isDownloading = false
      ∧ (step s (Event.initRejected task)).createCalls = s.createCalls
      ∧ ((step s (Event.initRejected task)).messages = s.messages ++ [msgInitFailed]
          ∨ (step s (Event.initRejected task)).messages
              = s.messages ++ [msgInitFailed, msgPlaceholder]
          ∨ (step s (Event.initRejected task)).messages
              = s.messages ++ [msgInitFailed, msgNoChatApi])
      ∧ (a.cont = AcqCont.done ∨ s.engineRef = none →
          (step s (Event.initRejected task)).messages = s.messages ++ [msgInitFailed]) := by
  obtain ⟨f1, f2, -, f4, f5, -, f7, -⟩ :=
    resume_frame a.cont (initRejected (dropAcq task s))
  simp only [step, h1]
  rw [f1, f2, f4, f5, f7, resume_localStorage]
  refine ⟨getItem_setItem_same _ _ _, getItem_setItem_ne _ _ (Ne.symm keys_ne), rfl, rfl, rfl,
    rfl, rfl, ?_, ?_⟩
  · rcases resume_messages a.cont (initRejected (dropAcq task s)) with h | h | h
    · exact Or.inl h
    · exact Or.inr (Or.inl (by rw [h]; simp [initRejected, dropAcq]))
    · exact Or.inr (Or.inr (by rw [h]; simp [initRejected, dropAcq]))
  · intro h
    exact resume_messages_of_no_engine a.cont _ h

/-- C9 on a fresh device: the user accepts the download and the engine creation
throws. -/
theorem acquisition_failure_declines_witness :
    findAcq (mount Confirm.ok (initialState [] none)) 0 = some ⟨0, AcqCont.done⟩
    ∧ getItem (step (mount Confirm.ok (initialState [] none))
        (Event.initRejected 0)).localStorage DECLINED_KEY = some "1" :=
  ⟨by decide,
    (acquisition_failure_declines (mount Confirm.ok (initialState [] none)) 0
      ⟨0, AcqCont.done⟩ (by decide)).1⟩

/-! ## Routing of a turn -/

theorem find_new (acqs : List AcqTask) (id : Nat) (k : AcqCont)
    (h : ∀ a ∈ acqs, a.id ≠ id) :
    (acqs ++ [(⟨id, k⟩ : AcqTask)]).find? (fun a => a.id == id) = some ⟨id, k⟩ := by
  rw [List.find?_append]
  have : acqs.find? (fun a => a.id == id) = none := by
    rw [List.find?_eq_none]
    intro a ha
    simpa using h a ha
  simp [this]

theorem filter_new (acqs : List AcqTask) (id : Nat) (k : AcqCont)
    (h : ∀ a ∈ acqs, a.id ≠ id) :
    (acqs ++ [(⟨id, k⟩ : AcqTask)]).filter (fun a => a.id != id) = acqs := by
  rw [List.filter_append]
  have : acqs.filter (fun a => a.id != id) = acqs := by
    rw [List.filter_eq_self]
    intro a ha
    simpa using h a ha
  simp [this]

/-- C10, failing input: the session holds a loaded engine that lacks
`chat.completions.create`, as after mounting in a process whose engine lacks
it.  The turn "hi" is not streamed via the engine: the test of line 188 fails,
no stream is requested, line 211 shows the download button under the status
"Model ready" and the simulated responder answers after its delay.  The same
turn with an engine that has the capability is streamed. -/
theorem loaded_engine_without_chat_is_simulated :
    (readyState ⟨1, false, false⟩).engineRef = some ⟨1, false, false⟩
    ∧ (readyState ⟨1, false, false⟩).modelLoadedRef = true
    ∧ (readyState ⟨1, false, false⟩).isLoading = false
    ∧ (readyState ⟨1, false, false⟩).isDownloading = false
    ∧ (submitTurn "hi" (readyState ⟨1, false, false⟩)).gens = []
    ∧ (submitTurn "hi" (readyState ⟨1, false, false⟩)).timers = [1000]
    ∧ (submitTurn "hi" (readyState ⟨1, false, false⟩)).showDownloadButton = true
    ∧ (submitTurn "hi" (readyState ⟨1, false, false⟩)).internalInitStatus = "Model ready"
    ∧ (run (readyState ⟨1, false, false⟩)
        [Event.setInput "hi", Event.send, Event.timeout]).messages
      = [⟨Role.user, "hi"⟩, msgSimulated]
    ∧ (submitTurn "hi" (readyState ⟨1, true, false⟩)).gens
      = [⟨0, 0, "", chatHistory [] "hi"⟩]
    ∧ (submitTurn "hi" (readyState ⟨1, true, false⟩)).timers = [] := by
  decide

/-- The routing of a non-blank text sent in an idle state where the engine, if
there is one, has the chat capability.  The user message is appended.  (1) With
a loaded engine that has the chat capability a stream is requested with the
history and the text.  (2) With no engine in the session and the artifact flag
set, an acquisition is attempted: (2a) with no process-wide engine
`lazyCreateEngine` is called and the turn waits; when it resolves with an engine
that has the chat capability the stream is requested; when it throws, the
simulated responder answers; (2b) a process-wide engine that has the chat
capability is adopted and the stream is requested at once.  (3) With no engine
in the session and the artifact flag not set the simulated responder answers. -/
theorem submitTurn_routing (s : State) (text : String)
    (h1 : s.isLoading = false) (h2 : s.isDownloading = false) (h3 : jsTrim text ≠ "") :
    (∀ e, s.engineRef = some e → s.modelLoadedRef = true → e.hasChat = true →
      (submitTurn text s).messages
          = s.messages ++ [⟨Role.user, jsTrim text⟩, msgPlaceholder]
        ∧ (submitTurn text s).gens
          = s.gens ++ [⟨s.nextId, s.nextId, "", chatHistory s.messages (jsTrim text)⟩]
        ∧ (submitTurn text s).isLoading = true
        ∧ (submitTurn text s).timers = s.timers
        ∧ (submitTurn text s).acqs = s.acqs
        ∧ (submitTurn text s).createCalls = s.createCalls)
    ∧ (s.engineRef = none → artifactDownloaded s = true → s.windowEngine = none →
      ((submitTurn text s).messages = s.messages ++ [⟨Role.user, jsTrim text⟩]
        ∧ (submitTurn text s).acqs
          = s.acqs ++ [⟨s.nextId, AcqCont.send (jsTrim text) s.messages⟩]
        ∧ (submitTurn text s).createCalls = s.createCalls + 1
        ∧ (submitTurn text s).isDownloading = true
        ∧ (submitTurn text s).gens = s.gens
        ∧ (submitTurn text s).timers = s.timers)
      ∧ ((∀ a ∈ s.acqs, a.id ≠ s.nextId) →
        (∀ eng : Engine, s.disposedRef = false → eng.hasChat = true →
          (step (submitTurn text s) (Event.initResolved s.nextId eng)).messages
              = s.messages ++ [⟨Role.user, jsTrim text⟩, msgReady, msgPlaceholder]
            ∧ (step (submitTurn text s) (Event.initResolved s.nextId eng)).gens
              = s.gens ++ [⟨s.nextId + 1, s.nextId + 1, "",
                  chatHistory s.messages (jsTrim text)⟩]
            ∧ (step (submitTurn text s) (Event.initResolved s.nextId eng)).timers
              = s.timers)
        ∧ ((step (submitTurn text s) (Event.initRejected s.nextId)).messages
              = s.messages ++ [⟨Role.user, jsTrim text⟩, msgInitFailed]
            ∧ (step (submitTurn text s) (Event.initRejected s.nextId)).gens = s.gens
            ∧ (step (submitTurn text s) (Event.initRejected s.nextId)).timers
              = s.timers ++ [1000])))
    ∧ (∀ e, s.engineRef = none → artifactDownloaded s = true → s.windowEngine = some e →
      e.hasChat = true →
      (submitTurn text s).engineRef = some e
        ∧ (submitTurn text s).createCalls = s.createCalls
        ∧ (submitTurn text s).acqs = s.acqs
        ∧ (submitTurn text s).timers = s.timers
        ∧ (submitTurn text s).messages
              = s.messages ++ [⟨Role.user, jsTrim text⟩, msgPlaceholder]
        ∧ (submitTurn text s).gens
              = s.gens ++ [⟨s.nextId, s.nextId, "", chatHistory s.messages (jsTrim text)⟩])
    ∧ (s.engineRef = none → artifactDownloaded s = false →
      (submitTurn text s).messages = s.messages ++ [⟨Role.user, jsTrim text⟩]
        ∧ (submitTurn text s).timers = s.timers ++ [1000]
        ∧ (submitTurn text s).isLoading = true
        ∧ (submitTurn text s).gens = s.gens
        ∧ (submitTurn text s).acqs = s.acqs
        ∧ (submitTurn text s).createCalls = s.createCalls) := by
  obtain ⟨messages, input, isLoading, isDownloading, internalInitStatus, internalProgress,
    showDownloadButton, engineRef, modelLoadedRef, userDeclinedRef, abortRef, disposedRef,
    windowEngine, localStorage, acqs, gens, timers, cleanup, aborted, disposedEngines,
    confirmCalls, createCalls, nextId⟩ := s
  simp only at h1 h2
  subst h1 h2
  simp only [artifactDownloaded, decide_eq_true_eq, decide_eq_false_iff_not]
  refine ⟨?_, ?_, ?_, ?_⟩
  · intro e he hl hc
    subst he hl
    cases abortRef <;> simp [submitTurn, handleSend, h3, hc, generateWithEngine, abortHeld]
  · intro he hd hw
    subst he hw
    refine ⟨by simp [submitTurn, handleSend, h3, hd, startDownloadAndInit], ?_⟩
    intro hfresh
    have hsub : submitTurn text ⟨messages, input, false, false, internalInitStatus,
        internalProgress, showDownloadButton, none, modelLoadedRef, userDeclinedRef,
        abortRef, disposedRef, none, localStorage, acqs, gens, timers, cleanup, aborted,
        disposedEngines, confirmCalls, createCalls, nextId⟩
        = ⟨messages ++ [⟨Role.user, jsTrim text⟩], "", false, true, "Requesting model...",
        0, showDownloadButton, none, modelLoadedRef, userDeclinedRef,
        abortRef, disposedRef, none, localStorage,
        acqs ++ [⟨nextId, AcqCont.send (jsTrim text) messages⟩], gens, timers, cleanup,
        aborted, disposedEngines, confirmCalls, createCalls + 1, nextId + 1⟩ := by
      simp [submitTurn, handleSend, h3, hd, startDownloadAndInit]
    rw [hsub]
    have hf := find_new acqs nextId (AcqCont.send (jsTrim text) messages) hfresh
    have hg := filter_new acqs nextId (AcqCont.send (jsTrim text) messages) hfresh
    refine ⟨?_, ?_⟩
    · intro eng hdis hc
      subst hdis
      cases abortRef <;>
        simp [step, findAcq, hf, dropAcq, hg, initResolved, resume, sendAfterInit,
          generateWithEngine, hc, abortHeld]
    · simp [step, findAcq, hf, dropAcq, hg, initRejected, resume, sendAfterInit,
          simulateResponse]
  · intro e he hd hw hc
    subst he hw
    cases abortRef <;>
      simp [submitTurn, handleSend, h3, hd, startDownloadAndInit, adoptEngine, resume,
        sendAfterInit, generateWithEngine, hc, abortHeld]
  · intro he hd
    subst he
    cases userDeclinedRef <;> simp [submitTurn, handleSend, h3, hd, simulateResponse]

/-! ## A lazy acquisition that fails -/

/-- The state after a turn is sent with no engine in the session or the process
and the artifact flag set: `lazyCreateEngine` has been called and the turn waits. -/
theorem submitTurn_lazy_state (s : State) (text : String)
    (h1 : s.isLoading = false) (h2 : s.isDownloading = false) (h3 : jsTrim text ≠ "")
    (h4 : s.engineRef = none) (h5 : s.windowEngine = none)
    (h6 : artifactDownloaded s = true) :
    run s [Event.setInput text, Event.send]
      = { s with
          messages := s.messages ++ [⟨Role.user, jsTrim text⟩]
          input := ""
          internalInitStatus := "Requesting model..."
          internalProgress := 0
          isDownloading := true
          createCalls := s.createCalls + 1
          acqs := s.acqs ++ [⟨s.nextId, AcqCont.send (jsTrim text) s.messages⟩]
          nextId := s.nextId + 1 } := by
  obtain ⟨messages, input, isLoading, isDownloading, internalInitStatus, internalProgress,
    showDownloadButton, engineRef, modelLoadedRef, userDeclinedRef, abortRef, disposedRef,
    windowEngine, localStorage, acqs, gens, timers, cleanup, aborted, disposedEngines,
    confirmCalls, createCalls, nextId⟩ := s
  simp only at h1 h2 h4 h5
  subst h1 h2 h4 h5
  simp only [artifactDownloaded, decide_eq_true_eq] at h6
  simp [run, step, handleSend, h3, h6, startDownloadAndInit]

/-- C11, counterexample: on a device whose artifact flag is set and that has not
declined, "hi" is sent and the engine creation started by it throws.  The turn
is answered by the simulated responder, but the declined marker of the session
and the declined key, both unset before the turn, are set after it. -/
theorem failed_lazy_init_sets_declined_markers :
    artifactPresentState.userDeclinedRef = false
    ∧ downloadDeclined artifactPresentState = false
    ∧ artifactDownloaded artifactPresentState = true
    ∧ artifactPresentState.engineRef = none
    ∧ (run artifactPresentState
        [Event.setInput "hi", Event.send, Event.initRejected 0, Event.timeout]).messages
      = [⟨Role.user, "hi"⟩, msgInitFailed, msgSimulated]
    ∧ (run artifactPresentState
        [Event.setInput "hi", Event.send, Event.initRejected 0,
          Event.timeout]).userDeclinedRef = true
    ∧ downloadDeclined (run artifactPresentState
        [Event.setInput "hi", Event.send, Event.initRejected 0, Event.timeout]) = true := by
  decide

/-- C11, amended: a non-blank text is sent in an idle state with the artifact flag
set and no engine in the session or the process, and the engine creation started
by it throws.  That one turn is answered by the simulated responder: the
conversation grows by the user message, the failure message and, when the delay
of 1000 ms has elapsed, the simulated reply, and no stream is requested.  The
failure sets the declined marker of the session and the declined key.  Declined
is not forced for routing: the artifact key stays set and no engine is
published, so the next non-blank text calls `lazyCreateEngine` again instead of
going to the simulated responder, and a session mounted later over the same
store takes the branch of lines 58-65, with the declined marker unset, no
consent prompt and the download button hidden. -/
theorem failed_lazy_init_sets_markers_keeps_routing (s : State) (text next : String)
    (h1 : s.isLoading = false) (h2 : s.isDownloading = false) (h3 : jsTrim text ≠ "")
    (h4 : s.engineRef = none) (h5 : s.windowEngine = none)
    (h6 : artifactDownloaded s = true) (h7 : ∀ a ∈ s.acqs, a.id ≠ s.nextId)
    (h8 : jsTrim next ≠ "") :
    (run s [Event.setInput text, Event.send, Event.initRejected s.nextId]).messages
        = s.messages ++ [⟨Role.user, jsTrim text⟩, msgInitFailed]
      ∧ (run s [Event.setInput text, Event.send, Event.initRejected s.nextId]).timers
        = s.timers ++ [1000]
      ∧ (run s [Event.setInput text, Event.send, Event.initRejected s.nextId]).isLoading
        = true
      ∧ (run s [Event.setInput text, Event.send, Event.initRejected s.nextId]).gens = s.gens
      ∧ (run s [Event.setInput text, Event.send, Event.initRejected s.nextId,
          Event.timeout]).messages
        = s.messages ++ [⟨Role.user, jsTrim text⟩, msgInitFailed, msgSimulated]
      ∧ (run s [Event.setInput text, Event.send, Event.initRejected s.nextId,
          Event.timeout]).isLoading = false
      ∧ (run s [Event.setInput text, Event.send, Event.initRejected s.nextId,
          Event.timeout]).userDeclinedRef = true
      ∧ downloadDeclined (run s [Event.setInput text, Event.send,
          Event.initRejected s.nextId, Event.timeout]) = true
      ∧ artifactDownloaded (run s [Event.setInput text, Event.send,
          Event.initRejected s.nextId, Event.timeout]) = true
      ∧ (run s [Event.setInput text, Event.send, Event.initRejected s.nextId,
          Event.timeout]).engineRef = none
      ∧ (run s [Event.setInput text, Event.send, Event.initRejected s.nextId,
          Event.timeout]).windowEngine = none
      ∧ (run s [Event.setInput text, Event.send, Event.initRejected s.nextId,
          Event.timeout, Event.setInput next, Event.send]).createCalls = s.createCalls + 2
      ∧ (run s [Event.setInput text, Event.send, Event.initRejected s.nextId,
          Event.timeout, Event.setInput next, Event.send]).acqs
        = s.acqs ++ [⟨s.nextId + 1, AcqCont.send (jsTrim next)
            (s.messages ++ [⟨Role.user, jsTrim text⟩, msgInitFailed, msgSimulated])⟩]
      ∧ (run s [Event.setInput text, Event.send, Event.initRejected s.nextId,
          Event.timeout, Event.setInput next, Event.send]).isDownloading = true
      ∧ (run s [Event.setInput text, Event.send, Event.initRejected s.nextId,
          Event.timeout, Event.setInput next, Event.send]).timers
        = (s.timers ++ [1000]).tail
      ∧ ∀ c : Confirm,
          (mount c (initialState (run s [Event.setInput text, Event.send,
            Event.initRejected s.nextId, Event.timeout]).localStorage none)).userDeclinedRef
            = false
          ∧ (mount c (initialState (run s [Event.setInput text, Event.send,
            Event.initRejected s.nextId, Event.timeout]).localStorage none)).internalInitStatus
            = "Model artifacts present (init on demand)"
          ∧ (mount c (initialState (run s [Event.setInput text, Event.send,
            Event.initRejected s.nextId, Event.timeout]).localStorage none)).showDownloadButton
            = false
          ∧ (mount c (initialState (run s [Event.setInput text, Event.send,
            Event.initRejected s.nextId, Event.timeout]).localStorage none)).confirmCalls = 0
          ∧ (mount c (initialState (run s [Event.setInput text, Event.send,
            Event.initRejected s.nextId, Event.timeout]).localStorage none)).acqs = [] := by
  have e3 : run s [Event.setInput text, Event.send, Event.initRejected s.nextId]
      = run (run s [Event.setInput text, Event.send]) [Event.initRejected s.nextId] := rfl
  have e4 : run s [Event.setInput text, Event.send, Event.initRejected s.nextId,
      Event.timeout]
      = run (run s [Event.setInput text, Event.send])
          [Event.initRejected s.nextId, Event.timeout] := rfl
  have e6 : run s [Event.setInput text, Event.send, Event.initRejected s.nextId,
      Event.timeout, Event.setInput next, Event.send]
      = run (run s [Event.setInput text, Event.send])
          [Event.initRejected s.nextId, Event.timeout, Event.setInput next, Event.send] := rfl
  rw [e3, e4, e6, submitTurn_lazy_state s text h1 h2 h3 h4 h5 h6]
  have hf := find_new s.acqs s.nextId (AcqCont.send (jsTrim text) s.messages) h7
  have hg := filter_new s.acqs s.nextId (AcqCont.send (jsTrim text) s.messages) h7
  have hk : getItem (setItem s.localStorage DECLINED_KEY "1") LOCALSTORAGE_KEY = some "1" := by
    rw [getItem_setItem_ne _ _ (Ne.symm keys_ne)]
    simpa [artifactDownloaded] using h6
  have hd : getItem (setItem s.localStorage DECLINED_KEY "1") DECLINED_KEY = some "1" :=
    getItem_setItem_same _ _ _
  obtain ⟨messages, input, isLoading, isDownloading, internalInitStatus, internalProgress,
    showDownloadButton, engineRef, modelLoadedRef, userDeclinedRef, abortRef, disposedRef,
    windowEngine, localStorage, acqs, gens, timers, cleanup, aborted, disposedEngines,
    confirmCalls, createCalls, nextId⟩ := s
  simp only at h4 h5 hf hg hk hd
  subst h4 h5
  cases htm : timers ++ [1000] with
  | nil => simp at htm
  | cons t0 rest =>
    simp [run, step, findAcq, hf, dropAcq, hg, initRejected, resume, sendAfterInit,
      simulateResponse, simulateTimeout, artifactDownloaded, downloadDeclined, hk, hd,
      handleSend, h8, startDownloadAndInit, mount, initialState, htm]

/-- C11, amended, on a device whose artifact flag is set: "hi" is sent, the engine
creation throws, and "again" starts a second engine creation. -/
theorem failed_lazy_init_sets_markers_keeps_routing_witness :
    artifactPresentState.isLoading = false
    ∧ artifactPresentState.engineRef = none
    ∧ artifactPresentState.windowEngine = none
    ∧ artifactDownloaded artifactPresentState = true
    ∧ jsTrim "hi" ≠ ""
    ∧ jsTrim "again" ≠ ""
    ∧ (run artifactPresentState [Event.setInput "hi", Event.send,
        Event.initRejected artifactPresentState.nextId, Event.timeout,
        Event.setInput "again", Event.send]).createCalls
      = artifactPresentState.createCalls + 2
    ∧ artifactPresentState.createCalls + 2 = 2 :=
  ⟨by decide, by decide, by decide, by decide, by decide, by decide,
    (failed_lazy_init_sets_markers_keeps_routing artifactPresentState "hi" "again"
      (by decide) (by decide) (by decide) (by decide) (by decide) (by decide) (by decide)
      (by decide)).2.2.2.2.2.2.2.2.2.2.2.1,
    by decide⟩

/-! ## A turn answered by the simulated responder -/

/-- What `trim` removes: the text is its trimmed part between two runs of white
space, and the trimmed part neither starts nor ends with white space. -/
theorem jsTrim_spec (text : String) :
    (∃ pre post : List Char, text.data = pre ++ (jsTrim text).data ++ post
        ∧ (∀ c ∈ pre, isJsWhitespace c = true) ∧ (∀ c ∈ post, isJsWhitespace c = true))
      ∧ (∀ c, (jsTrim text).data.head? = some c → isJsWhitespace c = false)
      ∧ (∀ c, (jsTrim text).data.getLast? = some c → isJsWhitespace c = false) := by
  have hd : text.data.dropWhile isJsWhitespace
      = (jsTrim text).data
        ++ (((text.data.dropWhile isJsWhitespace).reverse).takeWhile isJsWhitespace).reverse := by
    have h := List.takeWhile_append_dropWhile isJsWhitespace
      (text.data.dropWhile isJsWhitespace).reverse
    have h' := congrArg List.reverse h
    rw [List.reverse_append, List.reverse_reverse] at h'
    exact h'.symm
  refine ⟨⟨text.data.takeWhile isJsWhitespace,
    (((text.data.dropWhile isJsWhitespace).reverse).takeWhile isJsWhitespace).reverse,
    ?_, ?_, ?_⟩, ?_, ?_⟩
  · rw [List.append_assoc, ← hd, List.takeWhile_append_dropWhile]
  · intro c hc
    exact List.mem_takeWhile_imp hc
  · intro c hc
    rw [List.mem_reverse] at hc
    exact List.mem_takeWhile_imp hc
  · intro c hc
    have hne : (jsTrim text).data ≠ [] := by
      intro h0
      rw [h0] at hc
      simp at hc
    have hh : (text.data.dropWhile isJsWhitespace).head? = some c := by
      rw [hd, List.head?_append_of_ne_nil _ hne]
      exact hc
    have := List.head?_dropWhile_not isJsWhitespace text.data
    rw [hh] at this
    simpa using this
  · intro c hc
    have hr : (jsTrim text).data
        = ((text.data.dropWhile isJsWhitespace).reverse.dropWhile isJsWhitespace).reverse := rfl
    rw [hr, List.getLast?_reverse] at hc
    have := List.head?_dropWhile_not isJsWhitespace (text.data.dropWhile isJsWhitespace).reverse
    rw [hc] at this
    simpa using this

/-- C12: a non-blank text is sent in an idle declined state with no engine in
the session and the artifact flag not set.  The user message appended is the
text without the white space that surrounds it: the text is the content between
two runs of white space, and the content neither starts nor ends with white
space.  `isLoading` is set and one timer of 1000 ms is pending; nothing else
changes: no acquisition is started and `localStorage` is untouched.  When the
timer fires, the canned reply is appended once and `isLoading` is cleared. -/
theorem declined_turn_is_simulated (s : State) (text : String)
    (h1 : s.isLoading = false) (h2 : s.isDownloading = false) (h3 : jsTrim text ≠ "")
    (h4 : s.engineRef = none) (h5 : artifactDownloaded s = false)
    (h6 : s.userDeclinedRef = true) :
    run s [Event.setInput text, Event.send]
        = { s with
            messages := s.messages ++ [⟨Role.user, jsTrim text⟩]
            input := ""
            isLoading := true
            timers := s.timers ++ [1000] }
      ∧ run s [Event.setInput text, Event.send, Event.timeout]
        = { s with
            messages := s.messages
              ++ [⟨Role.user, jsTrim text⟩, ⟨Role.model, "This is a simulated AI response."⟩]
            input := ""
            isLoading := false
            timers := (s.timers ++ [1000]).tail }
      ∧ (∃ pre post : List Char, text.data = pre ++ (jsTrim text).data ++ post
          ∧ (∀ c ∈ pre, isJsWhitespace c = true) ∧ (∀ c ∈ post, isJsWhitespace c = true))
      ∧ (∀ c, (jsTrim text).data.head? = some c → isJsWhitespace c = false)
      ∧ (∀ c, (jsTrim text).data.getLast? = some c → isJsWhitespace c = false) := by
  refine ⟨?_, ?_, jsTrim_spec text⟩
  · obtain ⟨messages, input, isLoading, isDownloading, internalInitStatus, internalProgress,
      showDownloadButton, engineRef, modelLoadedRef, userDeclinedRef, abortRef, disposedRef,
      windowEngine, localStorage, acqs, gens, timers, cleanup, aborted, disposedEngines,
      confirmCalls, createCalls, nextId⟩ := s
    simp only at h1 h2 h4 h6
    subst h1 h2 h4 h6
    simp only [artifactDownloaded, decide_eq_false_iff_not] at h5
    simp [run, step, handleSend, h3, h5, simulateResponse]
  · obtain ⟨messages, input, isLoading, isDownloading, internalInitStatus, internalProgress,
      showDownloadButton, engineRef, modelLoadedRef, userDeclinedRef, abortRef, disposedRef,
      windowEngine, localStorage, acqs, gens, timers, cleanup, aborted, disposedEngines,
      confirmCalls, createCalls, nextId⟩ := s
    simp only at h1 h2 h4 h6
    subst h1 h2 h4 h6
    simp only [artifactDownloaded, decide_eq_false_iff_not] at h5
    cases htm : timers ++ [1000] with
    | nil => simp at htm
    | cons t0 rest =>
      simp [run, step, handleSend, h3, h5, simulateResponse, simulateTimeout, msgSimulated,
        htm]

/-- C12 on a fresh device where the user has declined the download: a text with
white space around "hello world" is sent; the user message is "hello world",
and the canned reply follows it when the timer of 1000 ms fires. -/
theorem declined_turn_is_simulated_witness :
    (mount Confirm.cancel (initialState [] none)).userDeclinedRef = true
    ∧ artifactDownloaded (mount Confirm.cancel (initialState [] none)) = false
    ∧ jsTrim " \t hello world \n " ≠ ""
    ∧ (run (mount Confirm.cancel (initialState [] none))
        [Event.setInput " \t hello world \n ", Event.send]).timers = [1000]
    ∧ (run (mount Confirm.cancel (initialState [] none))
        [Event.setInput " \t hello world \n ", Event.send, Event.timeout]).messages
      = [⟨Role.model, "Using simulated responses (offline model not downloaded)."⟩,
          ⟨Role.user, "hello world"⟩, ⟨Role.model, "This is a simulated AI response."⟩] :=
  ⟨by decide, by decide, by decide,
    (congrArg State.timers
      (declined_turn_is_simulated (mount Confirm.cancel (initialState [] none))
        " \t hello world \n " (by decide) (by decide) (by decide) (by decide) (by decide)
        (by decide)).1).trans (by decide),
    by decide⟩

/-! ## Stopping -/

/-- C18: with a controller in the token slot `handleStop` signals it, empties
the slot and clears `isLoading`, and changes nothing else.  With an empty slot
it returns the state it was given; this is so while idle, while an acquisition
is in flight and while the simulated responder's timer is pending, none of
which puts a controller in the slot. -/
theorem handleStop_acts_only_on_held_token (s : State) :
    (∀ c, s.abortRef = some c →
      handleStop s = { s with aborted := c :: s.aborted, abortRef := none, isLoading := false })
    ∧ (s.abortRef = none → handleStop s = s)
    ∧ (s.abortRef = none → handleStop (simulateResponse s) = simulateResponse s)
    ∧ (s.abortRef = none →
        handleStop (startDownloadAndInit AcqCont.done s) = startDownloadAndInit AcqCont.done s) := by
  refine ⟨?_, ?_, ?_, ?_⟩
  · intro c h
    simp [handleStop, h]
  · intro h
    simp [handleStop, h]
  · intro h
    simp [handleStop, simulateResponse, h]
  · intro h
    unfold startDownloadAndInit
    split <;> simp [handleStop, resume, adoptEngine, h]

/-- C18 while a stream is in flight, and while the simulated responder's timer
is pending. -/
theorem handleStop_acts_only_on_held_token_witness :
    handleStop (run (readyState ⟨1, true, true⟩) [Event.setInput "a", Event.send])
      = { run (readyState ⟨1, true, true⟩) [Event.setInput "a", Event.send] with
          aborted := 0 :: (run (readyState ⟨1, true, true⟩)
            [Event.setInput "a", Event.send]).aborted
          abortRef := none
          isLoading := false }
    ∧ handleStop (run (initialState [] none)
        [Event.mount Confirm.cancel, Event.setInput "a", Event.send])
      = run (initialState [] none)
        [Event.mount Confirm.cancel, Event.setInput "a", Event.send] :=
  ⟨(handleStop_acts_only_on_held_token
      (run (readyState ⟨1, true, true⟩) [Event.setInput "a", Event.send])).1 0 (by decide),
    (handleStop_acts_only_on_held_token (run (initialState [] none)
      [Event.mount Confirm.cancel, Event.setInput "a", Event.send])).2.1 (by decide)⟩

/-! ## The streamed message -/

/-- C13: a turn is sent in an idle state whose loaded engine has the chat
capability and the stream yields the chunks `pieces`, whatever their number.
The conversation is then the earlier one followed by the user message and one
model message; once a chunk has been read, the content of that message is the
concatenation of the chunks in the order read.  The length of the conversation
does not depend on the number of chunks. -/
theorem streamed_chunks_replace_last (s : State) (eng : Engine) (text : String)
    (pieces : List (Option String))
    (h1 : s.isLoading = false) (h2 : s.isDownloading = false)
    (h3 : s.engineRef = some eng) (h4 : eng.hasChat = true) (h5 : s.modelLoadedRef = true)
    (h6 : s.gens = []) (h7 : jsTrim text ≠ "") :
    (run s ([Event.setInput text, Event.send] ++ pieces.map (Event.chunk s.nextId))).messages
        = s.messages ++ [⟨Role.user, jsTrim text⟩, ⟨Role.model, streamedContent pieces⟩]
      ∧ (pieces ≠ [] →
          (run s ([Event.setInput text, Event.send]
              ++ pieces.map (Event.chunk s.nextId))).messages
            = s.messages ++ [⟨Role.user, jsTrim text⟩, ⟨Role.model, deliveredText pieces⟩])
      ∧ (run s ([Event.setInput text, Event.send]
            ++ pieces.map (Event.chunk s.nextId))).messages.length
          = s.messages.length + 2
      ∧ (run s ([Event.setInput text, Event.send] ++ pieces.map (Event.chunk s.nextId))).gens
          = [⟨s.nextId, s.nextId, deliveredText pieces, chatHistory s.messages (jsTrim text)⟩] := by
  have hs : run s [Event.setInput text, Event.send] = handleSend { s with input := text } := rfl
  have key : run s ([Event.setInput text, Event.send] ++ pieces.map (Event.chunk s.nextId))
      = { handleSend { s with input := text } with
          messages := (s.messages ++ [⟨Role.user, jsTrim text⟩])
            ++ [⟨Role.model, if pieces = [] then " " else "" ++ deliveredText pieces⟩]
          gens := [⟨s.nextId, s.nextId, "" ++ deliveredText pieces,
            chatHistory s.messages (jsTrim text)⟩] } := by
    rw [run_append, hs]
    have hm : (handleSend { s with input := text }).messages
        = (s.messages ++ [⟨Role.user, jsTrim text⟩]) ++ [⟨Role.model, " "⟩] := by
      rw [handleSend_ready { s with input := text } eng h1 h2 h3 h4 h5 h7]
      simp [msgPlaceholder]
    have hg : (handleSend { s with input := text }).gens
        = [⟨s.nextId, s.nextId, "", chatHistory s.messages (jsTrim text)⟩] := by
      rw [handleSend_ready { s with input := text } eng h1 h2 h3 h4 h5 h7]
      simp [h6]
    exact run_chunks pieces (handleSend { s with input := text })
      (s.messages ++ [⟨Role.user, jsTrim text⟩]) " " s.nextId ""
      (chatHistory s.messages (jsTrim text)) hm hg
  rw [key]
  refine ⟨?_, ?_, ?_, ?_⟩
  · simp [streamedContent]
  · intro hp
    simp [hp]
  · simp
  · simp

/-- C13 at a stream that has yielded "Hel", a chunk without content and "lo". -/
theorem streamed_chunks_replace_last_witness :
    (readyState ⟨1, true, true⟩).gens = []
    ∧ jsTrim "hi" ≠ ""
    ∧ (run (readyState ⟨1, true, true⟩) ([Event.setInput "hi", Event.send]
        ++ [some "Hel", none, some "lo"].map
          (Event.chunk (readyState ⟨1, true, true⟩).nextId))).messages
      = (readyState ⟨1, true, true⟩).messages
        ++ [⟨Role.user, jsTrim "hi"⟩,
          ⟨Role.model, streamedContent [some "Hel", none, some "lo"]⟩] :=
  ⟨by decide, by decide,
    (streamed_chunks_replace_last (readyState ⟨1, true, true⟩) ⟨1, true, true⟩ "hi"
      [some "Hel", none, some "lo"] (by decide) (by decide) (by decide) (by decide)
      (by decide) (by decide) (by decide)).1⟩

/-- C14, evaluated: a stream that ends without a chunk leaves the placeholder
" ".  A stream that yields one chunk without content, or with the empty
content, and then ends leaves a model message whose content is the empty
string: the replacement of line 261 publishes `assistantAccum` as it is, while
the append of line 263 publishes `assistantAccum || " "`. -/
theorem empty_stream_publishes_empty_content :
    (run (readyState ⟨1, true, true⟩)
        [Event.setInput "hi", Event.send, Event.streamEnd 0]).messages
      = [⟨Role.user, "hi"⟩, ⟨Role.model, " "⟩]
    ∧ (run (readyState ⟨1, true, true⟩)
        [Event.setInput "hi", Event.send, Event.chunk 0 none, Event.streamEnd 0]).messages
      = [⟨Role.user, "hi"⟩, ⟨Role.model, ""⟩]
    ∧ (run (readyState ⟨1, true, true⟩)
        [Event.setInput "hi", Event.send, Event.chunk 0 (some ""),
          Event.streamEnd 0]).messages
      = [⟨Role.user, "hi"⟩, ⟨Role.model, ""⟩]
    ∧ streamUpdate "" [⟨Role.user, "hi"⟩, ⟨Role.model, " "⟩]
      = [⟨Role.user, "hi"⟩, ⟨Role.model, ""⟩]
    ∧ streamUpdate "" [⟨Role.user, "hi"⟩] = [⟨Role.user, "hi"⟩, ⟨Role.model, " "⟩] := by
  decide

/-- C15: when `generateWithEngine` requests a stream, the prompt it passes is
`chatHistory history userText`.  Its length is the length of the history plus
two; its first entry is the system instruction; entry `i + 1` has the content of
message `i` of the history, with role user for a user message and assistant for
a model message; its last entry is the user text. -/
theorem prompt_is_full_history (s : State) (eng : Engine) (history : List Message)
    (userText : String) (h1 : s.engineRef = some eng) (h2 : eng.hasChat = true) :
    (generateWithEngine userText history s).gens
        = s.gens ++ [⟨s.nextId, s.nextId, "", chatHistory history userText⟩]
      ∧ (chatHistory history userText).length = history.length + 2
      ∧ (chatHistory history userText)[0]?
          = some ⟨ChatRole.system, "You are a helpful assistant."⟩
      ∧ (∀ i, i < history.length →
          (chatHistory history userText)[i + 1]?
            = history[i]?.map fun m =>
                ⟨if m.role = Role.user then ChatRole.user else ChatRole.assistant, m.content⟩)
      ∧ (chatHistory history userText)[history.length + 1]?
          = some ⟨ChatRole.user, userText⟩ := by
  refine ⟨?_, ?_, ?_, ?_, ?_⟩
  · cases h : s.abortRef <;> simp [generateWithEngine, h1, h2, abortHeld, h]
  · simp [chatHistory]
  · simp [chatHistory]
  · intro i hi
    have hc : chatHistory history userText
        = ⟨ChatRole.system, "You are a helpful assistant."⟩
          :: (history.map (fun m => (⟨if m.role = Role.user then ChatRole.user
                else ChatRole.assistant, m.content⟩ : ChatMessage))
              ++ [⟨ChatRole.user, userText⟩]) := by
      simp only [chatHistory, List.singleton_append, List.cons_append, List.cons.injEq,
        true_and, List.append_cancel_right_eq]
      apply List.map_congr_left
      intro m _
      cases m.role <;> simp
    rw [hc, List.getElem?_cons_succ, List.getElem?_append_left (by simpa using hi),
      List.getElem?_map]
  · simp only [chatHistory, List.singleton_append, List.cons_append, List.getElem?_cons_succ]
    rw [List.getElem?_append_right (by simp)]
    simp

/-- C15 on a history of two messages. -/
theorem prompt_is_full_history_witness :
    (readyState ⟨1, true, true⟩).engineRef = some ⟨1, true, true⟩
    ∧ (chatHistory [⟨Role.user, "a"⟩, ⟨Role.model, "b"⟩] "c").length
      = [(⟨Role.user, "a"⟩ : Message), ⟨Role.model, "b"⟩].length + 2 :=
  ⟨by decide,
    (prompt_is_full_history (readyState ⟨1, true, true⟩) ⟨1, true, true⟩
      [⟨Role.user, "a"⟩, ⟨Role.model, "b"⟩] "c" (by decide) (by decide)).2.1⟩

/-! ## Progress reports -/

/-! ## Rounding to 53 bits -/

theorem excessBits_of_lt (fuel y : Nat) (h : y < 2 ^ 53) : excessBits fuel y = 0 := by
  cases fuel with
  | zero => rfl
  | succ n => rw [excessBits, if_pos h]

theorem excessBits_spec (fuel : Nat) : ∀ y : Nat, y < 2 ^ (53 + fuel) → 2 ^ 53 ≤ y →
    2 ^ 52 * 2 ^ excessBits fuel y ≤ y ∧ y < 2 ^ 53 * 2 ^ excessBits fuel y := by
  induction fuel with
  | zero =>
    intro y h1 h2
    rw [Nat.add_zero] at h1
    omega
  | succ n ih =>
    intro y h1 h2
    have hlt : ¬ y < 2 ^ 53 := by omega
    simp only [excessBits, hlt, if_false]
    have hy2 : y / 2 < 2 ^ (53 + n) := by
      rw [Nat.div_lt_iff_lt_mul (by norm_num)]
      calc y < 2 ^ (53 + (n + 1)) := h1
        _ = 2 ^ (53 + n) * 2 := by rw [← Nat.add_assoc, pow_succ]
    by_cases hbig : 2 ^ 53 ≤ y / 2
    · obtain ⟨a, b⟩ := ih (y / 2) hy2 hbig
      have e : 2 ^ (excessBits n (y / 2) + 1) = 2 ^ excessBits n (y / 2) * 2 := pow_succ _ _
      rw [e]
      omega
    · have h0 : excessBits n (y / 2) = 0 := excessBits_of_lt n _ (by omega)
      rw [h0]
      omega

theorem lt_two_pow_add (y : Nat) : y < 2 ^ (53 + y) :=
  lt_of_lt_of_le (Nat.lt_two_pow y) (Nat.pow_le_pow_right (by norm_num) (by omega))

/-- For `y` of at least 54 bits, `excessBits y y` is the number of bits over 53. -/
theorem shift_spec (y : Nat) (h : 2 ^ 53 ≤ y) :
    2 ^ 52 * 2 ^ excessBits y y ≤ y ∧ y < 2 ^ 53 * 2 ^ excessBits y y :=
  excessBits_spec y y (lt_two_pow_add y) h

theorem shift_unique (y d1 d2 : Nat) (h1 : 2 ^ 52 * 2 ^ d1 ≤ y) (h2 : y < 2 ^ 53 * 2 ^ d1)
    (h3 : 2 ^ 52 * 2 ^ d2 ≤ y) (h4 : y < 2 ^ 53 * 2 ^ d2) : d1 = d2 := by
  have key : ∀ a b : Nat, 2 ^ 52 * 2 ^ a ≤ y → y < 2 ^ 53 * 2 ^ b → a ≤ b := by
    intro a b ha hb
    by_contra hcon
    have hab : b + 1 ≤ a := by omega
    have : 2 ^ (b + 1) ≤ 2 ^ a := Nat.pow_le_pow_right (by norm_num) hab
    rw [pow_succ] at this
    generalize 2 ^ a = ta at ha this
    generalize 2 ^ b = tb at hb this
    omega
  exact le_antisymm (key d1 d2 h1 h4) (key d2 d1 h3 h2)

theorem round53_of_lt (y : Nat) (h : y < 2 ^ 53) : round53 y = y := by
  rw [round53, if_pos h]

/-- The rounding written with the number `d` of bits dropped. -/
theorem round53_eq (y d : Nat) (h1 : 2 ^ 52 * 2 ^ d ≤ y) (h2 : y < 2 ^ 53 * 2 ^ d) :
    round53 y
      = if 2 ^ d < 2 * (y % 2 ^ d) ∨ (2 * (y % 2 ^ d) = 2 ^ d ∧ y / 2 ^ d % 2 = 1) then
          (y / 2 ^ d + 1) * 2 ^ d
        else y / 2 ^ d * 2 ^ d := by
  cases d with
  | zero =>
    rw [round53_of_lt y (by simpa using h2)]
    simp [Nat.mod_one]
  | succ n =>
    have hbig : 2 ^ 53 ≤ y := by
      have : 2 ^ (n + 1) = 2 ^ n * 2 := pow_succ _ _
      have hp : 0 < 2 ^ n := Nat.two_pow_pos _
      rw [this] at h1
      generalize 2 ^ n = t at h1 hp
      omega
    obtain ⟨s1, s2⟩ := shift_spec y hbig
    have hd : excessBits y y = n + 1 := shift_unique y _ _ s1 s2 h1 h2
    have hnot : ¬ y < 2 ^ 53 := by omega
    rw [round53, if_neg hnot]
    simp only [hd]

theorem round53_double (y : Nat) : round53 (2 * y) = 2 * round53 y := by
  by_cases h1 : 2 * y < 2 ^ 53
  · rw [round53_of_lt _ h1, round53_of_lt _ (by omega)]
  · by_cases h2 : y < 2 ^ 53
    · rw [round53_of_lt _ h2, round53_eq (2 * y) 1 (by omega) (by omega)]
      have hm : 2 * y % 2 ^ 1 = 0 := by omega
      have hq : 2 * y / 2 ^ 1 = y := by omega
      rw [hm, hq]
      simp
      omega
    · obtain ⟨s1, s2⟩ := shift_spec y (by omega)
      generalize excessBits y y = d at s1 s2
      have e : 2 ^ (d + 1) = 2 * 2 ^ d := by rw [pow_succ, Nat.mul_comm]
      rw [round53_eq y d s1 s2, round53_eq (2 * y) (d + 1) (by rw [e]; omega) (by rw [e]; omega)]
      have hp : 0 < 2 ^ d := Nat.two_pow_pos _
      have hq : 2 * y / 2 ^ (d + 1) = y / 2 ^ d := by
        rw [e, Nat.mul_div_mul_left _ _ (by norm_num)]
      have hm : 2 * y % 2 ^ (d + 1) = 2 * (y % 2 ^ d) := by
        rw [e, Nat.mul_mod_mul_left]
      rw [hq, hm, e]
      generalize y / 2 ^ d = q
      generalize y % 2 ^ d = r
      generalize 2 ^ d = p at hp
      by_cases hc : p < 2 * r ∨ (2 * r = p ∧ q % 2 = 1)
      · have hc2 : 2 * p < 2 * (2 * r) ∨ (2 * (2 * r) = 2 * p ∧ q % 2 = 1) := by omega
        rw [if_pos hc, if_pos hc2]
        ring
      · have hc2 : ¬ (2 * p < 2 * (2 * r) ∨ (2 * (2 * r) = 2 * p ∧ q % 2 = 1)) := by omega
        rw [if_neg hc, if_neg hc2]
        ring

theorem round53_shift (y j : Nat) : round53 (y * 2 ^ j) = round53 y * 2 ^ j := by
  induction j with
  | zero => simp
  | succ n ih =>
    have e : y * 2 ^ (n + 1) = 2 * (y * 2 ^ n) := by rw [pow_succ]; ring
    rw [e, round53_double, ih, pow_succ]
    ring

/-- Bounds on the rounding of a number that has `d` bits over 53. -/
theorem round53_bounds (y d : Nat) (h1 : 2 ^ 52 * 2 ^ d ≤ y) (h2 : y < 2 ^ 53 * 2 ^ d) :
    2 ^ 52 * 2 ^ d ≤ round53 y ∧ round53 y ≤ 2 ^ 53 * 2 ^ d := by
  have hp : 0 < 2 ^ d := Nat.two_pow_pos _
  have hq1 : 2 ^ 52 ≤ y / 2 ^ d := (Nat.le_div_iff_mul_le hp).2 h1
  have hq2 : y / 2 ^ d < 2 ^ 53 := (Nat.div_lt_iff_lt_mul hp).2 h2
  rw [round53_eq y d h1 h2]
  generalize y / 2 ^ d = q at hq1 hq2
  generalize y % 2 ^ d = r
  generalize 2 ^ d = p at hp
  split
  · constructor
    · nlinarith
    · have : q + 1 ≤ 2 ^ 53 := hq2
      exact Nat.mul_le_mul_right p this
  · constructor
    · exact Nat.mul_le_mul_right p hq1
    · exact Nat.mul_le_mul_right p (le_of_lt hq2)

theorem round53_mono {a b : Nat} (h : a ≤ b) : round53 a ≤ round53 b := by
  by_cases hb : b < 2 ^ 53
  · rw [round53_of_lt b hb, round53_of_lt a (by omega)]
    exact h
  · obtain ⟨b1, b2⟩ := shift_spec b (by omega)
    generalize excessBits b b = db at b1 b2
    have hpb : 0 < 2 ^ db := Nat.two_pow_pos _
    by_cases ha : a < 2 ^ 53
    · rw [round53_of_lt a ha]
      have := (round53_bounds b db b1 b2).1
      by_cases hdb : db = 0
      · subst hdb
        rw [round53_of_lt b (by simpa using b2)]
        exact h
      · have h2 : 2 ≤ 2 ^ db := by
          have := Nat.pow_le_pow_right (n := 2) (by norm_num) (show 1 ≤ db by omega)
          simpa using this
        generalize 2 ^ db = p at this h2
        omega
    · obtain ⟨a1, a2⟩ := shift_spec a (by omega)
      generalize excessBits a a = da at a1 a2
      have hpa : 0 < 2 ^ da := Nat.two_pow_pos _
      by_cases hd : da = db
      · subst hd
        rw [round53_eq a da a1 a2, round53_eq b da b1 b2]
        have hq : a / 2 ^ da ≤ b / 2 ^ da := Nat.div_le_div_right h
        have hda := Nat.div_add_mod a (2 ^ da)
        have hdb := Nat.div_add_mod b (2 ^ da)
        have hra := Nat.mod_lt a hpa
        have hrb := Nat.mod_lt b hpa
        generalize a / 2 ^ da = qa at hq hda
        generalize b / 2 ^ da = qb at hq hdb
        generalize a % 2 ^ da = ra at hda hra
        generalize b % 2 ^ da = rb at hdb hrb
        generalize 2 ^ da = p at hpa hda hdb hra hrb
        by_cases hqq : qa = qb
        · subst hqq
          have hr : ra ≤ rb := by omega
          split
          · rename_i hc
            have hc2 : p < 2 * rb ∨ (2 * rb = p ∧ qa % 2 = 1) := by omega
            rw [if_pos hc2]
          · split
            · exact Nat.mul_le_mul_right p (by omega)
            · exact le_refl _
        · have hlt : qa + 1 ≤ qb := by omega
          have h1 : (qa + 1) * p ≤ qb * p := Nat.mul_le_mul_right p hlt
          have h2 : qa * p ≤ (qa + 1) * p := Nat.mul_le_mul_right p (by omega)
          have h3 : qb * p ≤ (qb + 1) * p := Nat.mul_le_mul_right p (by omega)
          split <;> split <;> omega
      · have hlt : da < db := by
          by_contra hcon
          have hgt : db + 1 ≤ da := by omega
          have := Nat.pow_le_pow_right (n := 2) (by norm_num) hgt
          rw [pow_succ] at this
          generalize 2 ^ da = pa at a1 a2 this
          generalize 2 ^ db = pb at b1 b2 this
          omega
        have h1 := (round53_bounds a da a1 a2).2
        have h2 := (round53_bounds b db b1 b2).1
        have := Nat.pow_le_pow_right (n := 2) (by norm_num) (show da + 1 ≤ db by omega)
        rw [pow_succ] at this
        generalize 2 ^ da = pa at h1 this
        generalize 2 ^ db = pb at h2 this
        omega

/-! ## Exact values -/

theorem dyadic_add (m : Nat) (b : Int) (j : Nat) :
    dyadic m (b + j) = dyadic (m * 2 ^ j) b := by
  unfold dyadic
  rw [zpow_add₀ (by norm_num : (2 : Rat) ≠ 0), zpow_natCast]
  push_cast
  ring

theorem dyadic_le_same (a b : Nat) (e : Int) : dyadic a e ≤ dyadic b e ↔ a ≤ b := by
  unfold dyadic
  have hp : (0 : Rat) < 2 ^ e := zpow_pos (by norm_num) e
  rw [mul_le_mul_right hp]
  exact Nat.cast_le

theorem dyadic_nonneg (m : Nat) (e : Int) : 0 ≤ dyadic m e := by
  unfold dyadic
  have hp : (0 : Rat) < 2 ^ e := zpow_pos (by norm_num) e
  positivity

/-- The rounded product by 100 keeps the order of the exact values. -/
theorem roundedProduct_mono (m1 m2 : Nat) (e1 e2 : Int) (h : dyadic m1 e1 ≤ dyadic m2 e2) :
    dyadic (round53 (m1 * 100)) e1 ≤ dyadic (round53 (m2 * 100)) e2 := by
  obtain ⟨j1, hj1⟩ : ∃ j : Nat, e1 = min e1 e2 + j :=
    ⟨(e1 - min e1 e2).toNat, by have := min_le_left e1 e2; omega⟩
  obtain ⟨j2, hj2⟩ : ∃ j : Nat, e2 = min e1 e2 + j :=
    ⟨(e2 - min e1 e2).toNat, by have := min_le_right e1 e2; omega⟩
  generalize min e1 e2 = b at hj1 hj2
  subst hj1 hj2
  rw [dyadic_add, dyadic_add, dyadic_le_same] at h
  rw [dyadic_add, dyadic_add, dyadic_le_same, ← round53_shift, ← round53_shift]
  apply round53_mono
  calc m1 * 100 * 2 ^ j1 = m1 * 2 ^ j1 * 100 := by ring
    _ ≤ m2 * 2 ^ j2 * 100 := Nat.mul_le_mul_right 100 h
    _ = m2 * 100 * 2 ^ j2 := by ring

theorem dyadic_one : dyadic 1 0 = 1 := by
  simp [dyadic]

theorem round53_hundred : round53 (1 * 100) = 100 := by
  decide

theorem dyadic_hundred : dyadic 100 0 = 100 := by
  simp [dyadic]

/-- `Math.round` of a finite number that is not negative is the floor of its
exact value plus one half. -/
theorem mathRound_finite (m : Nat) (e : Int) :
    mathRound (JsNumber.finite false m e) = Percent.int ⌊dyadic m e + 1 / 2⌋ := by
  unfold mathRound dyadic
  simp only [Bool.false_eq_true, if_false]
  by_cases he : 0 ≤ e
  · rw [if_pos he]
    congr 1
    obtain ⟨k, rfl⟩ := Int.eq_ofNat_of_zero_le he
    rw [Int.toNat_ofNat, zpow_natCast, eq_comm, Int.floor_eq_iff]
    push_cast
    constructor <;> linarith
  · rw [if_neg he]
    congr 1
    obtain ⟨k, hk⟩ : ∃ k : Nat, e = -(k : Int) := ⟨(-e).toNat, by omega⟩
    subst hk
    have hk' : (- -(k : Int)).toNat = k := by simp
    rw [hk', zpow_neg, zpow_natCast]
    have h2 : ((m : Rat) * ((2 : Rat) ^ k)⁻¹ + 1 / 2)
        = (((2 * (m : Int) + 2 ^ k : Int)) : Rat) / ((2 ^ (k + 1) : Nat) : Rat) := by
      push_cast
      field_simp
      ring
    rw [h2, Rat.floor_intCast_div_natCast]
    push_cast
    rfl

/-- The test `progress >= 1` on a finite number that is not negative. -/
theorem geOne_finite (m : Nat) (e : Int) :
    geOne (JsNumber.finite false m e) = true ↔ 1 ≤ dyadic m e := by
  unfold geOne dyadic
  simp only [Bool.not_false, Bool.true_and]
  by_cases he : 0 ≤ e
  · rw [if_pos he]
    obtain ⟨k, rfl⟩ := Int.eq_ofNat_of_zero_le he
    rw [zpow_natCast, decide_eq_true_eq]
    constructor
    · intro h
      have h1 : (1 : Rat) ≤ m := by exact_mod_cast h
      have h2 : (1 : Rat) ≤ 2 ^ k := one_le_pow₀ (by norm_num)
      nlinarith
    · intro h
      by_contra hcon
      have hm : m = 0 := by omega
      subst hm
      norm_num at h
  · rw [if_neg he]
    obtain ⟨k, hk⟩ : ∃ k : Nat, e = -(k : Int) := ⟨(-e).toNat, by omega⟩
    subst hk
    have hk' : (- -(k : Int)).toNat = k := by simp
    rw [hk', zpow_neg, zpow_natCast, decide_eq_true_eq]
    have hp : (0 : Rat) < 2 ^ k := by positivity
    rw [← div_eq_mul_inv, le_div_iff₀ hp, one_mul]
    exact_mod_cast Iff.rfl

/-- The product by 100 of a number between 0 and 1 does not overflow. -/
theorem timesHundred_of_le_one (m : Nat) (e : Int) (h : dyadic m e ≤ 1) :
    timesHundred (JsNumber.finite false m e)
      = JsNumber.finite false (round53 (m * 100)) e := by
  have hb : dyadic (round53 (m * 100)) e ≤ 100 := by
    have := roundedProduct_mono m 1 e 0 (by rw [dyadic_one]; exact h)
    rwa [round53_hundred, dyadic_hundred] at this
  simp only [timesHundred]
  rw [if_neg]
  intro hover
  unfold dyadic at hb
  by_cases he : 0 ≤ e
  · rw [if_pos he] at hover
    obtain ⟨k, rfl⟩ := Int.eq_ofNat_of_zero_le he
    rw [Int.toNat_ofNat] at hover
    rw [zpow_natCast] at hb
    have h1 : ((round53 (m * 100) * 2 ^ k : Nat) : Rat) ≤ 100 := by
      push_cast
      exact hb
    have h2 : round53 (m * 100) * 2 ^ k ≤ 100 := by exact_mod_cast h1
    have h3 : (100 : Nat) < 2 ^ 1024 := by norm_num
    omega
  · rw [if_neg he] at hover
    obtain ⟨k, hk⟩ : ∃ k : Nat, e = -(k : Int) := ⟨(-e).toNat, by omega⟩
    subst hk
    have hk' : (- -(k : Int)).toNat = k := by simp
    rw [hk'] at hover
    rw [zpow_neg, zpow_natCast] at hb
    have hp : (0 : Rat) < 2 ^ k := by positivity
    rw [← div_eq_mul_inv, div_le_iff₀ hp] at hb
    have h1 : ((round53 (m * 100) : Nat) : Rat) ≤ ((100 * 2 ^ k : Nat) : Rat) := by
      push_cast
      exact hb
    have h2 : round53 (m * 100) ≤ 100 * 2 ^ k := by exact_mod_cast h1
    have h3 : 100 * 2 ^ k < 2 ^ 1024 * 2 ^ k :=
      Nat.mul_lt_mul_of_pos_right (by norm_num) (Nat.two_pow_pos k)
    omega

theorem roundedPercent_mono (m1 m2 : Nat) (e1 e2 : Int) (h : dyadic m1 e1 ≤ dyadic m2 e2) :
    roundedPercent m1 e1 ≤ roundedPercent m2 e2 := by
  unfold roundedPercent
  exact Int.floor_mono (by linarith [roundedProduct_mono m1 m2 e1 e2 h])

theorem roundedPercent_nonneg (m : Nat) (e : Int) : 0 ≤ roundedPercent m e := by
  unfold roundedPercent
  rw [Int.floor_nonneg]
  linarith [dyadic_nonneg (round53 (m * 100)) e]

theorem roundedPercent_one : roundedPercent 1 0 = 100 := by
  unfold roundedPercent
  rw [round53_hundred, dyadic_hundred, Int.floor_eq_iff]
  constructor <;> norm_num

theorem roundedPercent_le_hundred (m : Nat) (e : Int) (h : dyadic m e ≤ 1) :
    roundedPercent m e ≤ 100 := by
  rw [← roundedPercent_one]
  exact roundedPercent_mono m 1 e 0 (by rw [dyadic_one]; exact h)

theorem roundedPercent_of_one (m : Nat) (e : Int) (h : dyadic m e = 1) :
    roundedPercent m e = 100 := by
  apply le_antisymm (roundedPercent_le_hundred m e h.le)
  rw [← roundedPercent_one]
  exact roundedPercent_mono 1 m 0 e (by rw [dyadic_one, h])

set_option exponentiation.threshold 2048 in
/-- The product of a zero of either sign by 100 is that zero. -/
theorem timesHundred_zero (negative : Bool) (e : Int) :
    timesHundred (JsNumber.finite negative 0 e) = JsNumber.finite negative 0 e := by
  have hr : round53 (0 * 100) = 0 := by decide
  have hK := Nat.two_pow_pos 1024
  show (if (if 0 ≤ e then 2 ^ 1024 ≤ round53 (0 * 100) * 2 ^ e.toNat
      else 2 ^ 1024 * 2 ^ (-e).toNat ≤ round53 (0 * 100)) then
    JsNumber.inf negative else JsNumber.finite negative (round53 (0 * 100)) e)
    = JsNumber.finite negative 0 e
  generalize 2 ^ 1024 = K at hK ⊢
  rw [hr]
  rw [if_neg]
  intro h
  split at h
  · rw [Nat.zero_mul] at h
    omega
  · have := Nat.mul_pos hK (Nat.two_pow_pos (-e).toNat)
    omega

/-- A zero of either sign is rounded to 0. -/
theorem mathRound_zero (negative : Bool) (e : Int) :
    mathRound (JsNumber.finite negative 0 e) = Percent.int 0 := by
  have hn : (if negative = true then -((0 : Nat) : Int) else ((0 : Nat) : Int)) = 0 := by
    cases negative <;> simp
  simp only [mathRound, hn]
  split
  · rw [Int.zero_mul]
  · congr 1
    have h2k : (0 : Int) < 2 ^ (-e).toNat := by positivity
    apply Int.ediv_eq_zero_of_lt (by omega)
    rw [pow_succ]
    omega

/-- The percent published for a report between 0 and 1. -/
theorem percent_of_le_one (m : Nat) (e : Int) (h : dyadic m e ≤ 1) :
    (if geOne (JsNumber.finite false m e) = true then (100 : Percent)
      else mathRound (timesHundred (JsNumber.finite false m e)))
      = Percent.int (roundedPercent m e) := by
  split
  · rename_i h1
    rw [geOne_finite] at h1
    rw [roundedPercent_of_one m e (le_antisymm h h1)]
    rfl
  · rw [timesHundred_of_le_one m e h, mathRound_finite]
    rfl

/-- One numeric report delivered to a pending acquisition before any teardown. -/
theorem step_progress (s : State) (task : Nat) (a : AcqTask) (t : Option String)
    (p : JsNumber) (h1 : findAcq s task = some a) (h2 : s.disposedRef = false) :
    step s (Event.progress task ⟨t, some p⟩)
      = { s with
          internalInitStatus := strOr (t.getD "") "Loading model..."
          internalProgress :=
            if geOne p = true then 100 else mathRound (timesHundred p) } := by
  simp only [step, h1, onProgress, h2]
  by_cases hp : geOne p = true <;> simp [hp]

theorem publishedPercents_eq (ps : List (Option String × JsNumber)) (s : State) (task : Nat)
    (a : AcqTask) (h1 : findAcq s task = some a) (h2 : s.disposedRef = false) :
    publishedPercents s task (reportsOf ps)
      = ps.map fun q => if geOne q.2 = true then 100 else mathRound (timesHundred q.2) := by
  induction ps generalizing s with
  | nil => rfl
  | cons q rest ih =>
    simp only [reportsOf, List.map_cons, publishedPercents]
    rw [step_progress s task a q.1 q.2 h1 h2]
    have := ih { s with
          internalInitStatus := strOr (q.1.getD "") "Loading model..."
          internalProgress :=
            if geOne q.2 = true then 100 else mathRound (timesHundred q.2) } h1 h2
    simp only [reportsOf] at this
    rw [this]

set_option exponentiation.threshold 2048 in
set_option maxRecDepth 100000 in
/-- C16, counterexample: the double nearest to 0.285 is 5134103575202365 * 2^-54.
Reported to the acquisition started from the consent prompt and followed by the
report 1, it publishes the percents 28 and 100, while the integer nearest to
100 * 0.285 = 28.5, halves going up, is 29.  The same double is the nearest to
0.285000000000000001, whose product by 100 is above 28.5 and rounds to 29 under
every rule for halves. -/
theorem report_0285_publishes_28 :
    isNearestDouble 5134103575202365 (-54) (285 / 1000) = true
    ∧ publishedPercents (mount Confirm.ok (initialState [] none)) 0
        (reportsOf [(none, JsNumber.finite false 5134103575202365 (-54)),
          (none, JsNumber.finite false 1 0)])
      = [28, 100]
    ∧ ⌊(285 / 1000 : Rat) * 100 + 1 / 2⌋ = 29
    ∧ isNearestDouble 5134103575202365 (-54) (285000000000000001 / 10 ^ 18) = true
    ∧ (28 : Rat) + 1 / 2 < 285000000000000001 / 10 ^ 18 * 100
    ∧ ⌊(285000000000000001 / 10 ^ 18 : Rat) * 100 + 1 / 2⌋ = 29 := by
  refine ⟨?_, by decide, ?_, ?_, by norm_num, ?_⟩
  · simp only [isNearestDouble, dyadic, Bool.and_eq_true, decide_eq_true_eq]
    refine ⟨⟨⟨⟨by norm_num, by norm_num⟩, by norm_num⟩, by norm_num⟩, ?_⟩
    rw [abs_lt] ; norm_num
  · rw [Int.floor_eq_iff]; norm_num
  · simp only [isNearestDouble, dyadic, Bool.and_eq_true, decide_eq_true_eq]
    refine ⟨⟨⟨⟨by norm_num, by norm_num⟩, by norm_num⟩, by norm_num⟩, ?_⟩
    rw [abs_lt] ; norm_num
  · rw [Int.floor_eq_iff]; norm_num

/-- C16, amended: numeric reports `m * 2^e` with values between 0 and 1, as
every double in that range is, each at least the one before, are delivered to a
pending acquisition before any teardown.  The percent published for each report
is `Math.round` of the double product by 100, that is `roundedPercent m e`; the
published percents lie between 0 and 100, each is at least the one before, and
the last is 100 when the last value is 1. -/
theorem progress_percents_monotone (s : State) (task : Nat) (a : AcqTask)
    (ps : List (Option String × Nat × Int))
    (h1 : findAcq s task = some a) (h2 : s.disposedRef = false)
    (h3 : ∀ q ∈ ps, dyadic q.2.1 q.2.2 ≤ 1)
    (h4 : ps.Chain' (fun x y => dyadic x.2.1 x.2.2 ≤ dyadic y.2.1 y.2.2)) :
    publishedPercents s task
        (reportsOf (ps.map fun q => (q.1, JsNumber.finite false q.2.1 q.2.2)))
      = ps.map (fun q => Percent.int (roundedPercent q.2.1 q.2.2))
      ∧ (ps.map fun q => roundedPercent q.2.1 q.2.2).Chain' (fun x y => x ≤ y)
      ∧ (∀ q ∈ ps, 0 ≤ roundedPercent q.2.1 q.2.2 ∧ roundedPercent q.2.1 q.2.2 ≤ 100)
      ∧ (∀ q, ps.getLast? = some q → 1 ≤ dyadic q.2.1 q.2.2 →
          (publishedPercents s task
            (reportsOf (ps.map fun q => (q.1, JsNumber.finite false q.2.1 q.2.2)))).getLast?
            = some 100) := by
  have heq : publishedPercents s task
        (reportsOf (ps.map fun q => (q.1, JsNumber.finite false q.2.1 q.2.2)))
      = ps.map (fun q => Percent.int (roundedPercent q.2.1 q.2.2)) := by
    rw [publishedPercents_eq _ s task a h1 h2, List.map_map]
    apply List.map_congr_left
    intro q hq
    exact percent_of_le_one q.2.1 q.2.2 (h3 q hq)
  rw [heq]
  refine ⟨rfl, ?_, ?_, ?_⟩
  · rw [List.chain'_map]
    exact h4.imp fun {x y} hxy => roundedPercent_mono _ _ _ _ hxy
  · intro q hq
    exact ⟨roundedPercent_nonneg _ _, roundedPercent_le_hundred _ _ (h3 q hq)⟩
  · intro q hq h1q
    have hq1 : dyadic q.2.1 q.2.2 = 1 :=
      le_antisymm (h3 q (List.mem_of_getLast?_eq_some hq)) h1q
    rw [List.getLast?_map, hq]
    simp only [Option.map_some']
    rw [roundedPercent_of_one _ _ hq1]
    rfl

set_option exponentiation.threshold 2048 in
set_option maxRecDepth 100000 in
/-- C16, amended, on the reports 0, 0.125, 0.5 and 1: the percents 0, 13, 50 and
100 are published; 12.5 goes up to 13.  The reports 0, 0.5 and 1 publish 0, 50
and 100. -/
theorem progress_percents_monotone_witness :
    findAcq (mount Confirm.ok (initialState [] none)) 0 = some ⟨0, AcqCont.done⟩
    ∧ (mount Confirm.ok (initialState [] none)).disposedRef = false
    ∧ publishedPercents (mount Confirm.ok (initialState [] none)) 0
        (reportsOf [(none, JsNumber.finite false 0 0),
          (some "Fetching", JsNumber.finite false 1 (-3)),
          (some "Fetching", JsNumber.finite false 1 (-1)),
          (none, JsNumber.finite false 1 0)])
      = [Percent.int (roundedPercent 0 0), Percent.int (roundedPercent 1 (-3)),
          Percent.int (roundedPercent 1 (-1)), Percent.int (roundedPercent 1 0)]
    ∧ publishedPercents (mount Confirm.ok (initialState [] none)) 0
        (reportsOf [(none, JsNumber.finite false 0 0),
          (some "Fetching", JsNumber.finite false 1 (-3)),
          (some "Fetching", JsNumber.finite false 1 (-1)),
          (none, JsNumber.finite false 1 0)])
      = [0, 13, 50, 100]
    ∧ publishedPercents (mount Confirm.ok (initialState [] none)) 0
        (reportsOf [(none, JsNumber.finite false 0 0),
          (some "Fetching", JsNumber.finite false 1 (-1)),
          (none, JsNumber.finite false 1 0)])
      = [0, 50, 100] :=
  ⟨by decide, by decide,
    (progress_percents_monotone (mount Confirm.ok (initialState [] none)) 0
      ⟨0, AcqCont.done⟩
      [(none, 0, 0), (some "Fetching", 1, -3), (some "Fetching", 1, -1), (none, 1, 0)]
      (by decide) (by decide) (by simp [dyadic]; norm_num)
      (by simp [dyadic]; norm_num)).1,
    by decide, by decide⟩

set_option exponentiation.threshold 2048 in
set_option maxRecDepth 100000 in
/-- C17, counterexample: the report -0.5, delivered to the acquisition started
from the consent prompt, publishes the percent -50, and the report NaN
publishes NaN. -/
theorem negative_progress_publishes_negative_percent :
    (step (mount Confirm.ok (initialState [] none))
      (Event.progress 0 ⟨none, some (JsNumber.finite true 1 (-1))⟩)).internalProgress
      = Percent.int (-50)
    ∧ (step (mount Confirm.ok (initialState [] none))
      (Event.progress 0 ⟨none, some JsNumber.nan⟩)).internalProgress = Percent.nan := by
  decide

/-- C17, amended: for every numeric progress value that is neither NaN nor
negative, values above 1 and the positive infinity included, delivered to a
pending acquisition before any teardown, the percent published is an integer
between 0 and 100, and it is 100 whenever the value is at least 1. -/
theorem nonneg_progress_percent_in_range (s : State) (task : Nat) (a : AcqTask)
    (t : Option String) (p : JsNumber)
    (h1 : findAcq s task = some a) (h2 : s.disposedRef = false)
    (h3 : p ≠ JsNumber.nan) (h4 : isNegative p = false) :
    ∃ n : Int,
      (step s (Event.progress task ⟨t, some p⟩)).internalProgress = Percent.int n
      ∧ 0 ≤ n ∧ n ≤ 100 ∧ (geOne p = true → n = 100) := by
  rw [step_progress s task a t p h1 h2]
  simp only
  by_cases hp : geOne p = true
  · exact ⟨100, by rw [if_pos hp]; rfl, by norm_num, by norm_num, fun _ => rfl⟩
  · rw [if_neg hp]
    cases p with
    | nan => exact absurd rfl h3
    | inf negative =>
      cases negative
      · exact absurd rfl hp
      · simp [isNegative] at h4
    | finite negative m e =>
      cases negative
      · have hle : dyadic m e ≤ 1 := by
          rw [geOne_finite] at hp
          exact le_of_lt (not_le.mp hp)
        refine ⟨roundedPercent m e, ?_, roundedPercent_nonneg m e,
          roundedPercent_le_hundred m e hle, fun h => absurd h hp⟩
        rw [timesHundred_of_le_one m e hle, mathRound_finite]
        rfl
      · have hm : m = 0 := by
          simpa [isNegative] using h4
        subst hm
        refine ⟨0, ?_, le_refl 0, by norm_num, fun h => absurd h hp⟩
        rw [timesHundred_zero, mathRound_zero]

/-- C17, amended, on the report 2.5: the percent 100 is published. -/
theorem nonneg_progress_percent_in_range_witness :
    findAcq (mount Confirm.ok (initialState [] none)) 0 = some ⟨0, AcqCont.done⟩
    ∧ (mount Confirm.ok (initialState [] none)).disposedRef = false
    ∧ JsNumber.finite false 5 (-1) ≠ JsNumber.nan
    ∧ isNegative (JsNumber.finite false 5 (-1)) = false
    ∧ ∃ n : Int,
      (step (mount Confirm.ok (initialState [] none))
        (Event.progress 0 ⟨none, some (JsNumber.finite false 5 (-1))⟩)).internalProgress
        = Percent.int n
      ∧ 0 ≤ n ∧ n ≤ 100 ∧ (geOne (JsNumber.finite false 5 (-1)) = true → n = 100) :=
  ⟨by decide, by decide, by decide, by decide,
    nonneg_progress_percent_in_range (mount Confirm.ok (initialState [] none)) 0
      ⟨0, AcqCont.done⟩ none (JsNumber.finite false 5 (-1)) (by decide) (by decide)
      (by decide) (by decide)⟩

/-! ## Teardown -/

/-- C19, evaluated: the mount effect returns its cleanup only on the path that
calls `window.confirm`; the three early returns of lines 55, 64 and 71 leave
the component without one.  In a session mounted with a process-wide engine, on
a device with the artifact flag set, or on a device with the declined flag set,
a stream is in flight when the component is torn down: no controller is
signalled and `disposedRef` stays false.  In a session mounted through the
consent prompt the same teardown signals the controller and sets `disposedRef`. -/
theorem teardown_skipped_after_early_return :
    (readyState ⟨7, true, true⟩).cleanup = false
    ∧ artifactPresentState.cleanup = false
    ∧ declinedState.cleanup = false
    ∧ (run (readyState ⟨7, true, true⟩) [Event.setInput "a", Event.send]).abortRef = some 0
    ∧ (run (readyState ⟨7, true, true⟩)
        [Event.setInput "a", Event.send, Event.unmount]).aborted = []
    ∧ (run (readyState ⟨7, true, true⟩)
        [Event.setInput "a", Event.send, Event.unmount]).disposedRef = false
    ∧ (run artifactPresentState [Event.setInput "a", Event.send,
        Event.initResolved 0 ⟨7, true, true⟩]).abortRef = some 1
    ∧ (run artifactPresentState [Event.setInput "a", Event.send,
        Event.initResolved 0 ⟨7, true, true⟩, Event.unmount]).aborted = []
    ∧ (run artifactPresentState [Event.setInput "a", Event.send,
        Event.initResolved 0 ⟨7, true, true⟩, Event.unmount]).disposedRef = false
    ∧ (run declinedState [Event.clickDownload, Event.initResolved 0 ⟨7, true, true⟩,
        Event.setInput "a", Event.send]).abortRef = some 1
    ∧ (run declinedState [Event.clickDownload, Event.initResolved 0 ⟨7, true, true⟩,
        Event.setInput "a", Event.send, Event.unmount]).aborted = []
    ∧ (run declinedState [Event.clickDownload, Event.initResolved 0 ⟨7, true, true⟩,
        Event.setInput "a", Event.send, Event.unmount]).disposedRef = false
    ∧ (run (initialState [] none) [Event.mount Confirm.ok,
        Event.initResolved 0 ⟨7, true, true⟩, Event.setInput "a", Event.send,
        Event.unmount]).aborted = [1]
    ∧ (run (initialState [] none) [Event.mount Confirm.ok,
        Event.initResolved 0 ⟨7, true, true⟩, Event.setInput "a", Event.send,
        Event.unmount]).disposedRef = true := by
  decide

/-- A handle obtained after `disposedRef` was set is not published: the
process-wide slot, the session's engine, `localStorage` and the model-loaded
mark are as before, and the engine is disposed when it can be. -/
theorem initResolved_discarded (eng : Engine) (s : State) (h : s.disposedRef = true) :
    (initResolved eng s).windowEngine = s.windowEngine
      ∧ (initResolved eng s).engineRef = s.engineRef
      ∧ (initResolved eng s).localStorage = s.localStorage
      ∧ (initResolved eng s).messages = s.messages
      ∧ (initResolved eng s).isDownloading = false
      ∧ (eng.hasDispose = true → eng.id ∈ (initResolved eng s).disposedEngines) := by
  unfold initResolved
  rw [if_pos h]
  refine ⟨rfl, rfl, rfl, rfl, rfl, ?_⟩
  intro hd
  simp [hd]

/-- C20, evaluated: in a session mounted on a device with the declined flag set,
the download button is clicked, the component is torn down while the
acquisition is in flight, and the engine creation then resolves: the engine is
published process-wide, the artifact key is set, the declined key is removed and
a message is appended.  The same happens to the acquisition started by a
message on a device with the artifact flag set.  In a session mounted through
the consent prompt the handle obtained after the teardown is disposed and nothing
is written. -/
theorem teardown_without_cleanup_publishes_handle :
    declinedState.showDownloadButton = true
    ∧ (run declinedState [Event.clickDownload, Event.unmount]).isDownloading = true
    ∧ (run declinedState [Event.clickDownload, Event.unmount,
        Event.initResolved 0 ⟨7, true, true⟩]).windowEngine = some ⟨7, true, true⟩
    ∧ (run declinedState [Event.clickDownload, Event.unmount,
        Event.initResolved 0 ⟨7, true, true⟩]).localStorage = [(LOCALSTORAGE_KEY, "1")]
    ∧ declinedState.localStorage = [(DECLINED_KEY, "1")]
    ∧ (run declinedState [Event.clickDownload, Event.unmount,
        Event.initResolved 0 ⟨7, true, true⟩]).messages = [msgReady]
    ∧ (run declinedState [Event.clickDownload, Event.unmount,
        Event.initResolved 0 ⟨7, true, true⟩]).disposedEngines = []
    ∧ (run artifactPresentState [Event.setInput "hi", Event.send, Event.unmount,
        Event.initResolved 0 ⟨7, true, true⟩]).windowEngine = some ⟨7, true, true⟩
    ∧ (run artifactPresentState [Event.setInput "hi", Event.send, Event.unmount,
        Event.initResolved 0 ⟨7, true, true⟩]).messages
      = [⟨Role.user, "hi"⟩, msgReady, msgPlaceholder]
    ∧ (run (initialState [] none) [Event.mount Confirm.ok, Event.unmount,
        Event.initResolved 0 ⟨7, true, true⟩]).windowEngine = none
    ∧ (run (initialState [] none) [Event.mount Confirm.ok, Event.unmount,
        Event.initResolved 0 ⟨7, true, true⟩]).localStorage = []
    ∧ (run (initialState [] none) [Event.mount Confirm.ok, Event.unmount,
        Event.initResolved 0 ⟨7, true, true⟩]).messages = []
    ∧ (run (initialState [] none) [Event.mount Confirm.ok, Event.unmount,
        Event.initResolved 0 ⟨7, true, true⟩]).disposedEngines = [7] := by
  decide

/-! ## Two acquisitions at once -/

/-- C21, evaluated: in a session mounted on a device with the declined flag set
the download button is shown.  It is clicked, which calls `lazyCreateEngine`
and sets `isDownloading`; the button is still shown, and a second click calls
`lazyCreateEngine` again: two acquisitions are suspended at once, and each of
the two engines they resolve with is published in turn. -/
theorem second_click_starts_second_download :
    declinedState.showDownloadButton = true
    ∧ (run declinedState [Event.clickDownload]).isDownloading = true
    ∧ (run declinedState [Event.clickDownload]).showDownloadButton = true
    ∧ (run declinedState [Event.clickDownload]).createCalls = 1
    ∧ (run declinedState [Event.clickDownload, Event.clickDownload]).createCalls = 2
    ∧ (run declinedState [Event.clickDownload, Event.clickDownload]).acqs
      = [⟨0, AcqCont.done⟩, ⟨1, AcqCont.done⟩]
    ∧ (run declinedState [Event.clickDownload, Event.clickDownload,
        Event.initResolved 0 ⟨7, true, true⟩]).windowEngine = some ⟨7, true, true⟩
    ∧ (run declinedState [Event.clickDownload, Event.clickDownload,
        Event.initResolved 0 ⟨7, true, true⟩,
        Event.initResolved 1 ⟨8, true, true⟩]).windowEngine = some ⟨8, true, true⟩
    ∧ (run declinedState [Event.clickDownload, Event.clickDownload,
        Event.initResolved 0 ⟨7, true, true⟩,
        Event.initResolved 1 ⟨8, true, true⟩]).messages = [msgReady, msgReady] := by
  decide

/-- The part of C21 that holds: while `isDownloading` is set, sending a message
does not call `lazyCreateEngine`. -/
theorem handleSend_starts_no_download_while_downloading (s : State)
    (h : s.isDownloading = true) :
    (handleSend s).createCalls = s.createCalls ∧ (handleSend s).acqs = s.acqs := by
  have : handleSend s = s := by
    unfold handleSend
    simp [h]
  rw [this]
  exact ⟨rfl, rfl⟩

/-! ## A generation that fails -/

/-- C22: a suspended call of `generateWithEngine` throws an error whose name is
not "AbortError", while the stream is created or while it is read.  One model
message "Error: " followed by the error's message, or by "Unknown error" when it
has none, is appended; `isLoading` is cleared, the token slot is emptied and the
call is over.  Nothing else changes: the engine, the declined mark and
`localStorage` are as before.  If the session's loaded engine has the chat
capability and no acquisition is in flight, the next non-blank text sent
requests a stream again. -/
theorem generation_error_keeps_engine (s : State) (task : Nat) (t : GenTask) (name : String)
    (message : Option String)
    (h1 : findGen s task = some t) (h2 : name ≠ "AbortError") :
    step s (Event.streamError task name message)
        = { s with
            messages := s.messages
              ++ [⟨Role.model, "Error: " ++ strOr (message.getD "") "Unknown error"⟩]
            isLoading := false
            abortRef := none
            gens := s.gens.filter fun g => g.id != t.id }
      ∧ ∀ (eng : Engine) (text : String), s.engineRef = some eng → eng.hasChat = true →
          s.modelLoadedRef = true → s.isDownloading = false → jsTrim text ≠ "" →
          (submitTurn text (step s (Event.streamError task name message))).gens
              = (s.gens.filter fun g => g.id != t.id)
                ++ [⟨s.nextId, s.nextId, "",
                  chatHistory (s.messages
                    ++ [⟨Role.model, "Error: " ++ strOr (message.getD "") "Unknown error"⟩])
                    (jsTrim text)⟩]
            ∧ (submitTurn text (step s (Event.streamError task name message))).timers
              = s.timers := by
  have hstep : step s (Event.streamError task name message)
      = { s with
          messages := s.messages
            ++ [⟨Role.model, "Error: " ++ strOr (message.getD "") "Unknown error"⟩]
          isLoading := false
          abortRef := none
          gens := s.gens.filter fun g => g.id != t.id } := by
    simp [step, h1, onStreamError, h2, generateFinally]
  refine ⟨hstep, ?_⟩
  intro eng text he hc hl hd ht
  rw [hstep]
  unfold submitTurn
  rw [handleSend_ready _ eng rfl (by exact hd) (by exact he) hc (by exact hl) (by exact ht)]
  simp [abortHeld]

/-- C22 at a stream that throws a network error after one chunk. -/
theorem generation_error_keeps_engine_witness :
    findGen (run (readyState ⟨1, true, true⟩)
        [Event.setInput "a", Event.send, Event.chunk 0 (some "x")]) 0
      = some ⟨0, 0, "x", chatHistory [] "a"⟩
    ∧ (step (run (readyState ⟨1, true, true⟩)
        [Event.setInput "a", Event.send, Event.chunk 0 (some "x")])
        (Event.streamError 0 "TypeError" (some "network"))).messages
      = [⟨Role.user, "a"⟩, ⟨Role.model, "x"⟩, ⟨Role.model, "Error: network"⟩] := by
  refine ⟨by decide, ?_⟩
  rw [(generation_error_keeps_engine (run (readyState ⟨1, true, true⟩)
    [Event.setInput "a", Event.send, Event.chunk 0 (some "x")]) 0
    ⟨0, 0, "x", chatHistory [] "a"⟩ "TypeError" (some "network") (by decide) (by decide)).1]
  decide

/-! ## A loaded engine without the chat capability -/

/-- C23, failing input: the session holds a loaded engine without
`chat.completions.create`; "hi" is sent and the timer of the simulated responder
fires.  The reply appended is the canned one, the notice that the chat API is
missing is not in the conversation, and the download button is shown under the
status "Model ready".  The path of lines 193-203 answers the same condition
with the notice: on a device whose artifact flag is set, "hi" is sent, the
engine creation resolves with an engine without the capability and the notice
is appended, with `isLoading` left clear.  The next turn of that session, which
now holds this engine, gets the canned reply. -/
theorem engine_without_chat_gets_canned_reply :
    (readyState ⟨1, false, false⟩).engineRef = some ⟨1, false, false⟩
    ∧ (readyState ⟨1, false, false⟩).isLoading = false
    ∧ (readyState ⟨1, false, false⟩).isDownloading = false
    ∧ (run (readyState ⟨1, false, false⟩)
        [Event.setInput "hi", Event.send, Event.timeout]).messages
      = [⟨Role.user, "hi"⟩, ⟨Role.model, "This is a simulated AI response."⟩]
    ∧ msgNoChatApi ∉ (run (readyState ⟨1, false, false⟩)
        [Event.setInput "hi", Event.send, Event.timeout]).messages
    ∧ (run (readyState ⟨1, false, false⟩)
        [Event.setInput "hi", Event.send, Event.timeout]).showDownloadButton = true
    ∧ (run (readyState ⟨1, false, false⟩)
        [Event.setInput "hi", Event.send, Event.timeout]).internalInitStatus = "Model ready"
    ∧ (run artifactPresentState
        [Event.setInput "hi", Event.send, Event.initResolved 0 ⟨7, false, false⟩]).messages
      = [⟨Role.user, "hi"⟩, ⟨Role.model, "Offline model downloaded and ready."⟩,
          ⟨Role.model, "Chat API not available in this engine build."⟩]
    ∧ (run artifactPresentState
        [Event.setInput "hi", Event.send, Event.initResolved 0 ⟨7, false, false⟩]).isLoading
      = false
    ∧ (run artifactPresentState
        [Event.setInput "hi", Event.send, Event.initResolved 0 ⟨7, false, false⟩]).timers = []
    ∧ (run artifactPresentState
        [Event.setInput "hi", Event.send, Event.initResolved 0 ⟨7, false, false⟩]).engineRef
      = some ⟨7, false, false⟩
    ∧ (run artifactPresentState
        [Event.setInput "hi", Event.send, Event.initResolved 0 ⟨7, false, false⟩,
          Event.setInput "again", Event.send, Event.timeout]).messages
      = [⟨Role.user, "hi"⟩, ⟨Role.model, "Offline model downloaded and ready."⟩,
          ⟨Role.model, "Chat API not available in this engine build."⟩,
          ⟨Role.user, "again"⟩, ⟨Role.model, "This is a simulated AI response."⟩] := by
  decide

/-! ## The progress cells when an acquisition ends -/

theorem resume_progress_frame (k : AcqCont) (s : State) :
    (resume k s).internalInitStatus = s.internalInitStatus
      ∧ (resume k s).internalProgress = s.internalProgress := by
  cases k with
  | done => exact ⟨rfl, rfl⟩
  | send t h =>
    simp only [resume, sendAfterInit]
    split
    · simp only [generateWithEngine]
      split
      · exact ⟨rfl, rfl⟩
      · split
        · exact ⟨rfl, rfl⟩
        · cases h : s.abortRef <;> simp [abortHeld, h]
    · exact ⟨rfl, rfl⟩

/-- C25, counterexample: on a fresh device the user accepts the download.  When
the engine creation resolves, the status is "Model ready" and the percent 100.
When it throws instead, the status is still "Requesting model...", or the text
of the last report. -/
theorem progress_not_reset_at_end :
    (run (initialState [] none)
        [Event.mount Confirm.ok, Event.initResolved 0 ⟨7, true, true⟩]).internalInitStatus
      = "Model ready"
    ∧ (run (initialState [] none)
        [Event.mount Confirm.ok, Event.initResolved 0 ⟨7, true, true⟩]).internalProgress
      = 100
    ∧ (run (initialState [] none)
        [Event.mount Confirm.ok, Event.initRejected 0]).internalInitStatus
      = "Requesting model..."
    ∧ (run (initialState [] none)
        [Event.mount Confirm.ok, Event.progress 0 ⟨some "Fetching", none⟩,
          Event.initRejected 0]).internalInitStatus
      = "Fetching" := by
  decide

/-- C25, amended: an acquisition is suspended.  When its engine creation
resolves and no teardown has been signalled, the status is "Model ready" and the
percent is 100.  When its engine creation throws, the status and the percent are
what they were before. -/
theorem progress_at_end_of_acquisition (s : State) (task : Nat) (a : AcqTask)
    (h1 : findAcq s task = some a) :
    (∀ eng : Engine, s.disposedRef = false →
      (step s (Event.initResolved task eng)).internalInitStatus = "Model ready"
        ∧ (step s (Event.initResolved task eng)).internalProgress = 100)
    ∧ (step s (Event.initRejected task)).internalInitStatus = s.internalInitStatus
    ∧ (step s (Event.initRejected task)).internalProgress = s.internalProgress := by
  refine ⟨?_, ?_, ?_⟩
  · intro eng hd
    obtain ⟨f1, f2⟩ := resume_progress_frame a.cont (initResolved eng (dropAcq task s))
    simp only [step, h1]
    rw [f1, f2]
    have hd1 : (dropAcq task s).disposedRef = false := hd
    simp [initResolved, hd1]
  · simp only [step, h1]
    rw [(resume_progress_frame a.cont (initRejected (dropAcq task s))).1]
    rfl
  · simp only [step, h1]
    rw [(resume_progress_frame a.cont (initRejected (dropAcq task s))).2]
    rfl

set_option exponentiation.threshold 2048 in
set_option maxRecDepth 100000 in
/-- C25, amended, after a report of one half: the failure leaves the percent at
50. -/
theorem progress_at_end_of_acquisition_witness :
    findAcq (step (mount Confirm.ok (initialState [] none))
        (Event.progress 0 ⟨some "Fetching", some (JsNumber.finite false 1 (-1))⟩)) 0
      = some ⟨0, AcqCont.done⟩
    ∧ (step (step (mount Confirm.ok (initialState [] none))
        (Event.progress 0 ⟨some "Fetching", some (JsNumber.finite false 1 (-1))⟩))
        (Event.initRejected 0)).internalProgress = 50 :=
  ⟨by decide,
    ((progress_at_end_of_acquisition _ 0 ⟨0, AcqCont.done⟩ (by decide)).2.2).trans
      (by decide)⟩

/-! ## The conversation is append-only but for the last model message -/

theorem keepsHistory_of_extends {m m2 : List Message} (h : m <+: m2) : KeepsHistory m m2 := by
  obtain ⟨extra, rfl⟩ := h
  refine ⟨by simp, ?_⟩
  intro i hi _
  exact List.getElem?_append_left hi

theorem keepsHistory_trans {a b c : List Message} (h1 : KeepsHistory a b)
    (h2 : KeepsHistory b c) : KeepsHistory a c := by
  refine ⟨le_trans h1.1 h2.1, ?_⟩
  intro i hi hcond
  have hab := h1.2 i hi hcond
  rw [← hab]
  apply h2.2 i (lt_of_lt_of_le hi h1.1)
  rcases hcond with hlt | ⟨c0, hc0⟩
  · exact Or.inl (lt_of_lt_of_le hlt h1.1)
  · exact Or.inr ⟨c0, by rw [hab]; exact hc0⟩

/-- The updater of lines 257-265 either appends or puts a model message in the
place of a last message that is a model message. -/
theorem streamUpdate_cases (acc : String) (prev : List Message) :
    prev <+: streamUpdate acc prev
      ∨ ∃ init last, prev = init ++ [last] ∧ last.role = Role.model
          ∧ streamUpdate acc prev = init ++ [⟨Role.model, acc⟩] := by
  unfold streamUpdate
  split
  · rename_i last hlast
    split
    · rename_i hrole
      obtain ⟨init, hinit⟩ := List.getLast?_eq_some_iff.1 hlast
      refine Or.inr ⟨init, last, hinit, hrole, ?_⟩
      rw [hinit, List.dropLast_concat]
    · exact Or.inl (List.prefix_append _ _)
  · exact Or.inl (List.prefix_append _ _)

theorem keepsHistory_of_replace (init : List Message) (last : Message) (c : String)
    (h : last.role = Role.model) :
    KeepsHistory (init ++ [last]) (init ++ [⟨Role.model, c⟩]) := by
  refine ⟨by simp, ?_⟩
  intro i hi hcond
  simp only [List.length_append, List.length_singleton] at hi hcond
  rcases hcond with hlt | ⟨c0, hc0⟩
  · have hi2 : i < init.length := by omega
    rw [List.getElem?_append_left hi2, List.getElem?_append_left hi2]
  · by_cases hi2 : i < init.length
    · rw [List.getElem?_append_left hi2, List.getElem?_append_left hi2]
    · have hi3 : i = init.length := by omega
      subst hi3
      simp at hc0
      rw [hc0] at h
      simp at h

theorem generateWithEngine_extends (t : String) (h : List Message) (s : State) :
    s.messages <+: (generateWithEngine t h s).messages := by
  unfold generateWithEngine
  split
  · exact List.prefix_append _ _
  · split
    · exact List.prefix_append _ _
    · cases h : s.abortRef <;> simp [abortHeld, h]

theorem resume_extends (k : AcqCont) (s : State) : s.messages <+: (resume k s).messages := by
  rcases resume_messages k s with h | h | h <;> rw [h] <;> simp

theorem startDownloadAndInit_extends (k : AcqCont) (s : State) :
    s.messages <+: (startDownloadAndInit k s).messages := by
  unfold startDownloadAndInit
  split
  · rename_i e _
    exact resume_extends k (adoptEngine e s)
  · exact List.prefix_refl _

theorem handleSend_extends (s : State) : s.messages <+: (handleSend s).messages := by
  unfold handleSend
  split
  · exact List.prefix_refl _
  · simp only []
    have h0 : s.messages <+: s.messages ++ [⟨Role.user, jsTrim s.input⟩] :=
      List.prefix_append _ _
    split
    · exact h0.trans (generateWithEngine_extends (jsTrim s.input) s.messages
        { s with messages := s.messages ++ [⟨Role.user, jsTrim s.input⟩], input := "" })
    · split
      · exact h0.trans (startDownloadAndInit_extends (AcqCont.send (jsTrim s.input) s.messages)
          { s with messages := s.messages ++ [⟨Role.user, jsTrim s.input⟩], input := "" })
      · split
        · exact h0
        · exact h0

theorem mount_extends (c : Confirm) (s : State) : s.messages <+: (mount c s).messages := by
  unfold mount
  simp only []
  split
  · exact List.prefix_refl _
  · split
    · exact List.prefix_refl _
    · split
      · exact List.prefix_refl _
      · cases c
        · exact startDownloadAndInit_extends AcqCont.done
            { s with disposedRef := false, confirmCalls := s.confirmCalls + 1, cleanup := true }
        · exact List.prefix_append _ _
        · exact List.prefix_refl _

theorem initResolved_extends (eng : Engine) (s : State) :
    s.messages <+: (initResolved eng s).messages := by
  unfold initResolved
  split
  · exact List.prefix_refl _
  · exact List.prefix_append _ _

/-- One event either appends to the conversation or puts a model message in the
place of a last message that is a model message. -/
theorem step_appends_or_replaces_last (s : State) (ev : Event) :
    s.messages <+: (step s ev).messages
      ∨ ∃ init last c, s.messages = init ++ [last] ∧ last.role = Role.model
          ∧ (step s ev).messages = init ++ [⟨Role.model, c⟩] := by
  cases ev with
  | mount c => exact Or.inl (mount_extends c s)
  | unmount =>
    refine Or.inl ?_
    simp only [step, unmount]
    split <;> exact List.prefix_refl _
  | setInput text => exact Or.inl (List.prefix_refl _)
  | send => exact Or.inl (handleSend_extends s)
  | stop =>
    refine Or.inl ?_
    simp only [step, handleStop]
    split <;> exact List.prefix_refl _
  | clickDownload =>
    refine Or.inl ?_
    simp only [step, onClickDownloadButton]
    split
    · exact List.prefix_refl _
    · exact startDownloadAndInit_extends AcqCont.done s
  | progress task r =>
    refine Or.inl ?_
    simp only [step]
    split
    · unfold onProgress
      split
      · exact List.prefix_refl _
      · simp only []
        split
        · exact List.prefix_refl _
        · split <;> exact List.prefix_refl _
    · exact List.prefix_refl _
  | initResolved task eng =>
    refine Or.inl ?_
    simp only [step]
    split
    · rename_i a _
      have h0 : s.messages <+: (initResolved eng (dropAcq task s)).messages :=
        initResolved_extends eng (dropAcq task s)
      exact h0.trans (resume_extends a.cont (initResolved eng (dropAcq task s)))
    · exact List.prefix_refl _
  | initRejected task =>
    refine Or.inl ?_
    simp only [step]
    split
    · rename_i a _
      have h0 : s.messages <+: (initRejected (dropAcq task s)).messages :=
        List.prefix_append _ _
      exact h0.trans (resume_extends a.cont (initRejected (dropAcq task s)))
    · exact List.prefix_refl _
  | chunk task piece =>
    simp only [step]
    split
    · rename_i t _
      simp only [onChunk]
      rcases streamUpdate_cases
          (if strOr (piece.getD "") "" = "" then t.accum
            else t.accum ++ strOr (piece.getD "") "") s.messages with h | ⟨init, last, h1, h2, h3⟩
      · exact Or.inl h
      · exact Or.inr ⟨init, last, _, h1, h2, h3⟩
    · exact Or.inl (List.prefix_refl _)
  | streamEnd task =>
    refine Or.inl ?_
    simp only [step]
    split <;> exact List.prefix_refl _
  | streamError task name message =>
    refine Or.inl ?_
    simp only [step]
    split
    · simp only [onStreamError, generateFinally]
      split <;> exact List.prefix_append _ _
    · exact List.prefix_refl _
  | timeout =>
    refine Or.inl ?_
    simp only [step, simulateTimeout]
    split
    · exact List.prefix_refl _
    · exact List.prefix_append _ _

theorem step_keepsHistory (s : State) (ev : Event) :
    KeepsHistory s.messages (step s ev).messages := by
  rcases step_appends_or_replaces_last s ev with h | ⟨init, last, c, h1, h2, h3⟩
  · exact keepsHistory_of_extends h
  · rw [h1, h3]
    exact keepsHistory_of_replace init last c h2

/-- C24: every event either appends messages to the conversation or puts a
model message in the place of its last message when that one is a model
message; and after any sequence of events the conversation is at least as long
as before and every earlier message that was not the last one, or that is a
user message, is still at its index with its role and content. -/
theorem conversation_history_kept (s : State) (evs : List Event) :
    (∀ ev : Event,
      s.messages <+: (step s ev).messages
        ∨ ∃ init last c, s.messages = init ++ [last] ∧ last.role = Role.model
            ∧ (step s ev).messages = init ++ [⟨Role.model, c⟩])
    ∧ s.messages.length ≤ (run s evs).messages.length
    ∧ ∀ i, i < s.messages.length →
        (i + 1 < s.messages.length ∨ ∃ c, s.messages[i]? = some ⟨Role.user, c⟩) →
        (run s evs).messages[i]? = s.messages[i]? := by
  refine ⟨step_appends_or_replaces_last s, ?_⟩
  have key : ∀ (l : List Event) (u : State), KeepsHistory u.messages (run u l).messages := by
    intro l
    induction l with
    | nil =>
      intro u
      exact keepsHistory_of_extends (List.prefix_refl _)
    | cons ev rest ih =>
      intro u
      exact keepsHistory_trans (step_keepsHistory u ev) (ih (step u ev))
  exact key evs s

/-- C24 on a stream whose chunks replace the placeholder: the user message
before it stays in place. -/
theorem conversation_history_kept_witness :
    0 + 1 < (run (readyState ⟨1, true, true⟩) [Event.setInput "a", Event.send]).messages.length
    ∧ (run (run (readyState ⟨1, true, true⟩) [Event.setInput "a", Event.send])
        [Event.chunk 0 (some "x"), Event.chunk 0 (some "y"), Event.streamEnd 0,
          Event.setInput "b", Event.send]).messages[0]?
      = (run (readyState ⟨1, true, true⟩) [Event.setInput "a", Event.send]).messages[0]? :=
  ⟨by decide,
    (conversation_history_kept
      (run (readyState ⟨1, true, true⟩) [Event.setInput "a", Event.send])
      [Event.chunk 0 (some "x"), Event.chunk 0 (some "y"), Event.streamEnd 0,
        Event.setInput "b", Event.send]).2.2 0 (by decide) (Or.inl (by decide))⟩

end OfflineBot

namespace PostController

/-- The language handed to caption generation is `req.body?.targetLang || "English"`,
whether or not it is in `SUPPORTED_LANGUAGES`. -/
theorem passedLanguage_eq (req : Request) (uploadUrl : Option String) (l : String)
    (h : passedLanguage (createPostController req uploadUrl) = some l) :
    l = OfflineBot.strOr (req.targetLang.getD "") "English" := by
  unfold createPostController at h
  simp only [] at h
  split at h
  · simp [passedLanguage] at h
  · split at h
    · split at h
      · simpa [passedLanguage, eq_comm] using h
      · split at h
        · simp [passedLanguage] at h
        · simpa [passedLanguage, eq_comm] using h
    · split at h
      · simpa [passedLanguage, eq_comm] using h
      · simp [passedLanguage] at h

/-- C26, evaluated: "French" is not in `SUPPORTED_LANGUAGES`.  For an image, a
small PDF and a large PDF requested in French the controller warns that it
defaults to English and hands "French" to the caption request.  A listed
language is handed on unchanged and a missing one is "English". -/
theorem unsupported_language_is_passed_on :
    SUPPORTED_LANGUAGES.contains "French" = false
    ∧ createPostController ⟨some ⟨"image/png", 1000⟩, some "French"⟩ none
      = ⟨some "Unsupported targetLang \"French\", defaulting to English.",
          Outcome.imageCaption "image/png" "French"⟩
    ∧ createPostController ⟨some ⟨"application/pdf", 1000⟩, some "French"⟩ none
      = ⟨some "Unsupported targetLang \"French\", defaulting to English.",
          Outcome.documentCaption "French"⟩
    ∧ createPostController ⟨some ⟨"application/pdf", 4000000⟩, some "French"⟩ (some "u")
      = ⟨some "Unsupported targetLang \"French\", defaulting to English.",
          Outcome.largePdfPrompt "u" "French"⟩
    ∧ createPostController ⟨some ⟨"image/png", 1000⟩, some "Hindi"⟩ none
      = ⟨none, Outcome.imageCaption "image/png" "Hindi"⟩
    ∧ createPostController ⟨some ⟨"image/png", 1000⟩, none⟩ none
      = ⟨none, Outcome.imageCaption "image/png" "English"⟩ := by
  decide

end PostController
